import Mathlib

/-!
# MT9V032 sensor driver: geometry engine, streaming, lifecycle and controls

A shallow embedding of `linux-3.4/drivers/media/video/mt9v032.c`.

Machine integers are modelled with explicit wrap-around:

* `__s32` / `int` values are `Int`s kept in `[-2^31, 2^31)` by `s32`;
* `__u32` / `unsigned int` values are `Nat`s kept below `2^32` by `u32`;
* `u16` values are `Nat`s kept below `2^16` by `u16`.

A C division whose divisor is zero is a fault; the functions that can reach
one return `Option`, with `none` standing for the fault.
-/

namespace MT9V032

/-! ## Machine integers -/

/-- Conversion of an integer to `unsigned int` (reduction modulo 2^32). -/
def u32 (x : Int) : Nat := (x % 4294967296).toNat

/-- Conversion of an integer to `int` / `__s32` (two's complement wrap). -/
def s32 (x : Int) : Int := (x + 2147483648) % 4294967296 - 2147483648

/-- Conversion of a value to `u16`, as done for the `data` argument of `mt9v032_write`. -/
def u16 (x : Int) : Nat := (x % 65536).toNat

/-- Predicate: the integer is representable as a `__s32`. -/
def IsS32 (x : Int) : Prop := -2147483648 ≤ x ∧ x < 2147483648

/-- Predicate: the natural number is representable as a `__u32`. -/
def IsU32 (x : Nat) : Prop := x < 4294967296

/-- Predicate: the natural number is representable as a `u16`. -/
def IsU16 (x : Nat) : Prop := x < 65536

instance (x : Int) : Decidable (IsS32 x) := by unfold IsS32; infer_instance
instance (x : Nat) : Decidable (IsU32 x) := by unfold IsU32; infer_instance
instance (x : Nat) : Decidable (IsU16 x) := by unfold IsU16; infer_instance

/-! ## Kernel helper macros (`include/linux/kernel.h`, linux 3.4) -/

/-- Modelled from the spec: the kernel macro `ALIGN(x, a)` (its header,
`include/linux/kernel.h`, is not among the sources), here at type `int`.  The
spec describes `align_even` as rounding up to the next multiple of 2 and
`align_odd` as rounding up to the next odd number; `ALIGN(x, 2)` is that
`align_even`, `((x) + (mask)) & ~(mask)` with `mask = a - 1`, and the source
obtains `align_odd(x)` as `ALIGN(x + 1, 2) - 1`.  The bitwise operations act
on the two's complement bit pattern. -/
def ALIGN_s32 (x : Int) (a : Nat) : Int :=
  s32 (Int.ofNat (u32 (x + (Int.ofNat a - 1)) &&& (4294967295 ^^^ (a - 1))))

/-- Modelled from the spec: the kernel macro `ALIGN(x, a)` (header not among the
sources) at type `unsigned int`: `align_even` of the spec, rounding up to the
next multiple of `a`, with wrap-around modulo 2^32. -/
def ALIGN_u32 (x : Nat) (a : Nat) : Nat :=
  ((x + (a - 1)) % 4294967296) &&& (4294967295 ^^^ (a - 1))

/-- Modelled from the spec: the kernel macro `clamp(val, min, max)` (header not
among the sources) on `int`s, the `clamp` of the spec:
`__val = __val < __min ? __min : __val; __val > __max ? __max : __val`. -/
def clamp (val lo hi : Int) : Int :=
  let v := if val < lo then lo else val
  if v > hi then hi else v

/-- Modelled from the spec: the kernel macro `clamp_t(unsigned int, val, min, max)`
(header not among the sources), the `clamp` of the spec on operands that are
first converted to `unsigned int`. -/
def clamp_t_uint (val lo hi : Int) : Nat :=
  let v := if u32 val < u32 lo then u32 lo else u32 val
  if v > u32 hi then u32 hi else v

/-- Modelled from the spec: the kernel macro `min(x, y)` (header not among the
sources) on `int`s, the `min` of the spec. -/
def kmin (x y : Int) : Int := if x < y then x else y

/-- Modelled from the spec: the kernel macro `max(x, y)` (header not among the
sources) on `int`s, the `max` of the spec. -/
def kmax (x y : Int) : Int := if x > y then x else y

/-- Modelled from the spec: the kernel macro `DIV_ROUND_CLOSEST(x, divisor)`
(header not among the sources), the `round_half_away_from_zero(x / divisor)` of
the spec, computed as in linux 3.4 by `((x) + ((__divisor) / 2)) / (__divisor)`
with an `unsigned int` divisor, so that `x` is converted to `unsigned int` and
the sum wraps.  A zero divisor is a fault. -/
def DIV_ROUND_CLOSEST (x : Int) (divisor : Nat) : Option Nat :=
  if divisor = 0 then none
  else some (((u32 x + divisor / 2) % 4294967296) / divisor)

/-- Unsigned division `x / d` of an `int` by an `unsigned int`; a zero divisor
is a fault. -/
def udiv (x : Int) (d : Nat) : Option Nat :=
  if d = 0 then none else some (u32 x / d)

/-! ## Register map and limits -/

def MT9V032_PIXEL_ARRAY_HEIGHT : Int := 492
def MT9V032_CHIP_VERSION : Nat := 0x00
def MT9V032_CHIP_ID_REV1 : Int := 0x1311
def MT9V032_CHIP_ID_REV3 : Int := 0x1313
def MT9V034_CHIP_ID_REV1 : Int := 0x1324
def MT9V032_TOTAL_SHUTTER_WIDTH : Nat := 0x0b
def MT9V032_TOTAL_SHUTTER_WIDTH_DEF : Int := 480
def MT9V032_RESET : Nat := 0x0c
def MT9V032_ANALOG_GAIN : Nat := 0x35
def MT9V032_ANALOG_GAIN_DEF : Int := 16
def MT9V032_ROW_NOISE_CORR_CONTROL : Nat := 0x70
def MT9V032_PIXEL_CLOCK : Nat := 0x74
def MT9V032_PIXEL_CLOCK_INV_PXL_CLK : Nat := 1 <<< 4
def MT9V032_TEST_PATTERN : Nat := 0x7f
def MT9V032_TEST_PATTERN_DATA_MASK : Nat := 1023 <<< 0
def MT9V032_TEST_PATTERN_DATA_SHIFT : Nat := 0
def MT9V032_TEST_PATTERN_USE_DATA : Nat := 1 <<< 10
def MT9V032_TEST_PATTERN_GRAY_MASK : Nat := 3 <<< 11
def MT9V032_TEST_PATTERN_GRAY_VERTICAL : Nat := 1 <<< 11
def MT9V032_TEST_PATTERN_GRAY_HORIZONTAL : Nat := 2 <<< 11
def MT9V032_TEST_PATTERN_GRAY_DIAGONAL : Nat := 3 <<< 11
def MT9V032_TEST_PATTERN_ENABLE : Nat := 1 <<< 13
def MT9V032_TEST_PATTERN_FLIP : Nat := 1 <<< 14
def MT9V032_AEC_AGC_ENABLE : Nat := 0xaf
def MT9V032_AEC_ENABLE : Nat := 1 <<< 0
def MT9V032_AGC_ENABLE : Nat := 1 <<< 1
def MT9V032_PIXEL_ARRAY_WIDTH : Int := 782
def MT9V032_COLUMN_START : Nat := 0x01
def MT9V032_COLUMN_START_MIN : Int := 1
def MT9V032_COLUMN_START_DEF : Int := 1
def MT9V032_COLUMN_START_MAX : Int := 752
def MT9V032_ROW_START : Nat := 0x02
def MT9V032_ROW_START_MIN : Int := 4
def MT9V032_ROW_START_DEF : Int := 5
def MT9V032_ROW_START_MAX : Int := 482
def MT9V032_WINDOW_HEIGHT : Nat := 0x03
def MT9V032_WINDOW_HEIGHT_MIN : Int := 1
def MT9V032_WINDOW_HEIGHT_DEF : Int := 480
def MT9V032_WINDOW_HEIGHT_MAX : Int := 480
def MT9V032_WINDOW_WIDTH : Nat := 0x04
def MT9V032_WINDOW_WIDTH_MIN : Int := 1
def MT9V032_WINDOW_WIDTH_DEF : Int := 752
def MT9V032_WINDOW_WIDTH_MAX : Int := 752
def MT9V032_HORIZONTAL_BLANKING : Nat := 0x05
def MT9V032_CHIP_CONTROL : Nat := 0x07
def MT9V032_CHIP_CONTROL_MASTER_MODE : Nat := 1 <<< 3
def MT9V032_CHIP_CONTROL_DOUT_ENABLE : Nat := 1 <<< 7
def MT9V032_CHIP_CONTROL_SEQUENTIAL : Nat := 1 <<< 8
def MT9V032_READ_MODE : Nat := 0x0d
def MT9V032_READ_MODE_ROW_BIN_MASK : Nat := 3 <<< 0
def MT9V032_READ_MODE_ROW_BIN_SHIFT : Nat := 0
def MT9V032_READ_MODE_COLUMN_BIN_MASK : Nat := 3 <<< 2
def MT9V032_READ_MODE_COLUMN_BIN_SHIFT : Nat := 2
def MT9V032_READ_MODE_ROW_FLIP : Nat := 1 <<< 4
def MT9V032_READ_MODE_COLUMN_FLIP : Nat := 1 <<< 5

/-! ## Data model -/

/-- Modelled from the spec: the structure `struct v4l2_rect` (declared in
`linux/videodev2.h`, not among the sources), the rectangle
`{left, top, width, height}` of the spec, with four 32-bit signed fields. -/
structure v4l2_rect where
  left : Int
  top : Int
  width : Int
  height : Int
  deriving DecidableEq, Repr

/-- Modelled from the spec: the structure `struct v4l2_mbus_framefmt` (declared
in `linux/v4l2-mediabus.h`, not among the sources), the output frame
descriptor of the spec, reduced to the fields the driver computes: 32-bit
unsigned width and height.  The code, field and colorspace members are
constants that no modelled function changes. -/
structure v4l2_mbus_framefmt where
  width : Nat
  height : Nat
  deriving DecidableEq, Repr

/-- The driver instance `struct mt9v032`: active format and crop, power
count (`int`) and the two `u16` register shadows. -/
structure mt9v032 where
  format : v4l2_mbus_framefmt
  crop : v4l2_rect
  power_count : Int
  chip_control : Nat
  aec_agc : Nat
  deriving DecidableEq, Repr

/-- Modelled from the spec: the try state kept in a file handle
(`struct v4l2_subdev_fh`, declared in `media/v4l2-subdev.h`, not among the
sources), the parallel (format, crop) pair of the spec. -/
structure v4l2_subdev_fh where
  try_format : v4l2_mbus_framefmt
  try_crop : v4l2_rect
  deriving DecidableEq, Repr

/-- Modelled from the spec: the two values of `enum v4l2_subdev_format_whence`
(declared in `linux/v4l2-subdev.h`, not among the sources), the `which` tag of
the spec: `try` or `active`. -/
inductive v4l2_subdev_format_whence where
  | V4L2_SUBDEV_FORMAT_TRY
  | V4L2_SUBDEV_FORMAT_ACTIVE
  deriving DecidableEq, Repr

open v4l2_subdev_format_whence

/-- The memory the pad operations act on: the driver instance and the
caller's file handle. -/
structure Ctx where
  dev : mt9v032
  fh : v4l2_subdev_fh
  deriving DecidableEq, Repr

/-- The function `__mt9v032_get_pad_format`, read side. -/
def __mt9v032_get_pad_format (c : Ctx) (which : v4l2_subdev_format_whence) :
    v4l2_mbus_framefmt :=
  match which with
  | V4L2_SUBDEV_FORMAT_TRY => c.fh.try_format
  | V4L2_SUBDEV_FORMAT_ACTIVE => c.dev.format

/-- The function `__mt9v032_get_pad_crop`, read side. -/
def __mt9v032_get_pad_crop (c : Ctx) (which : v4l2_subdev_format_whence) : v4l2_rect :=
  match which with
  | V4L2_SUBDEV_FORMAT_TRY => c.fh.try_crop
  | V4L2_SUBDEV_FORMAT_ACTIVE => c.dev.crop

/-- Store through the pointer returned by `__mt9v032_get_pad_format`. -/
def set_pad_format (c : Ctx) (which : v4l2_subdev_format_whence)
    (f : v4l2_mbus_framefmt) : Ctx :=
  match which with
  | V4L2_SUBDEV_FORMAT_TRY => { c with fh := { c.fh with try_format := f } }
  | V4L2_SUBDEV_FORMAT_ACTIVE => { c with dev := { c.dev with format := f } }

/-- Store through the pointer returned by `__mt9v032_get_pad_crop`. -/
def set_pad_crop (c : Ctx) (which : v4l2_subdev_format_whence) (r : v4l2_rect) : Ctx :=
  match which with
  | V4L2_SUBDEV_FORMAT_TRY => { c with fh := { c.fh with try_crop := r } }
  | V4L2_SUBDEV_FORMAT_ACTIVE => { c with dev := { c.dev with crop := r } }

/-! ## Geometry engine -/

/-- The local `rect` of `mt9v032_set_crop` once the four clamps and the two
`min` have run: the clamped and aligned rectangle. -/
def set_crop_clamped (req : v4l2_rect) : v4l2_rect :=
  let left := clamp (s32 (ALIGN_s32 (s32 (req.left + 1)) 2 - 1))
    MT9V032_COLUMN_START_MIN MT9V032_COLUMN_START_MAX
  let top := clamp (s32 (ALIGN_s32 (s32 (req.top + 1)) 2 - 1))
    MT9V032_ROW_START_MIN MT9V032_ROW_START_MAX
  let width0 := clamp (ALIGN_s32 req.width 2)
    MT9V032_WINDOW_WIDTH_MIN MT9V032_WINDOW_WIDTH_MAX
  let height0 := clamp (ALIGN_s32 req.height 2)
    MT9V032_WINDOW_HEIGHT_MIN MT9V032_WINDOW_HEIGHT_MAX
  let width := kmin width0 (s32 (MT9V032_PIXEL_ARRAY_WIDTH - left))
  let height := kmin height0 (s32 (MT9V032_PIXEL_ARRAY_HEIGHT - top))
  { left := left, top := top, width := width, height := height }

/-- The function `mt9v032_set_crop`: clamps and aligns the requested
rectangle, resets the format when the size changes, installs the rectangle
and returns it (the value stored back into `crop->rect`). -/
def mt9v032_set_crop (c : Ctx) (which : v4l2_subdev_format_whence) (req : v4l2_rect) :
    Ctx × v4l2_rect :=
  let rect := set_crop_clamped req
  let __crop := __mt9v032_get_pad_crop c which
  let c1 :=
    if rect.width ≠ __crop.width ∨ rect.height ≠ __crop.height then
      set_pad_format c which
        { (__mt9v032_get_pad_format c which) with
          width := u32 rect.width, height := u32 rect.height }
    else c
  (set_pad_crop c1 which rect, rect)

/-- The local `width` (resp. `height`) of `mt9v032_set_format`:
`clamp_t(unsigned int, ALIGN(req, 2), max(crop / 8, MIN), crop)`, where `MIN` is
`MT9V032_WINDOW_WIDTH_MIN` (resp. `MT9V032_WINDOW_HEIGHT_MIN`), both equal to 1. -/
def set_format_clamped (cropdim : Int) (lo : Int) (req : Nat) : Nat :=
  clamp_t_uint (Int.ofNat (ALIGN_u32 req 2)) (kmax (Int.tdiv cropdim 8) lo) cropdim

/-- The local `hratio` (resp. `vratio`) of `mt9v032_set_format`:
`DIV_ROUND_CLOSEST(crop, clamped)`. -/
def set_format_ratio (cropdim : Int) (lo : Int) (req : Nat) : Option Nat :=
  DIV_ROUND_CLOSEST cropdim (set_format_clamped cropdim lo req)

/-- The function `mt9v032_set_format`: computes the binning ratios from the
requested size and installs `crop / ratio`; returns the installed format (the
value stored back into `format->format`). -/
def mt9v032_set_format (c : Ctx) (which : v4l2_subdev_format_whence)
    (req : v4l2_mbus_framefmt) : Option (Ctx × v4l2_mbus_framefmt) := do
  let __crop := __mt9v032_get_pad_crop c which
  let hratio ← set_format_ratio __crop.width MT9V032_WINDOW_WIDTH_MIN req.width
  let vratio ← set_format_ratio __crop.height MT9V032_WINDOW_HEIGHT_MIN req.height
  let w ← udiv __crop.width hratio
  let h ← udiv __crop.height vratio
  let __format : v4l2_mbus_framefmt :=
    { (__mt9v032_get_pad_format c which) with width := w, height := h }
  pure (set_pad_format c which __format, __format)

/-! ## Register I/O -/

/-- One observable operation of the driver on its collaborators: a transaction
on the two-wire bus, or `clk_prepare_enable` / `clk_disable_unprepare` on the
external clock. -/
inductive Access where
  | read (reg : Nat)
  | write (reg : Nat) (data : Nat)
  | clk_prepare_enable
  | clk_disable_unprepare
  deriving DecidableEq, Repr

/-- The bus transport, a parameter of the model: the value returned by the SMBus
primitive (`i2c_smbus_write_word_swapped`, `i2c_smbus_read_word_swapped`) for
the last transaction of the given history (oldest first).  For a write this
is 0 or a negative error number. -/
abbrev Bus := List Access → Int

/-- The function `mt9v032_write`: a 16-bit register write; returns the
transport's result and the extended bus history. -/
def mt9v032_write (bus : Bus) (log : List Access) (reg : Nat) (data : Int) :
    Int × List Access :=
  let log1 := log ++ [Access.write reg (u16 data)]
  (bus log1, log1)

/-- The function `mt9v032_set_chip_control`: read-modify-write of
CHIP_CONTROL through the shadow.  The complement `~clear` is taken on the 16
bits that survive the conversion of `value` to `u16`. -/
def mt9v032_set_chip_control (bus : Bus) (log : List Access) (dev : mt9v032)
    (clear set : Nat) : Int × List Access × mt9v032 :=
  let value := ((dev.chip_control &&& (65535 ^^^ clear)) ||| set) % 65536
  let (ret, log1) := mt9v032_write bus log MT9V032_CHIP_CONTROL (Int.ofNat value)
  if ret < 0 then (ret, log1, dev)
  else (0, log1, { dev with chip_control := value })

/-! ## Streaming -/

/-- The word passed to `mt9v032_write` for READ_MODE in `mt9v032_s_stream`:
`(hratio - 1) << MT9V032_READ_MODE_ROW_BIN_SHIFT |
 (vratio - 1) << MT9V032_READ_MODE_COLUMN_BIN_SHIFT` in `unsigned int`. -/
def read_mode_word (hratio vratio : Nat) : Nat :=
  ((u32 (Int.ofNat hratio - 1) <<< MT9V032_READ_MODE_ROW_BIN_SHIFT) % 4294967296) |||
  ((u32 (Int.ofNat vratio - 1) <<< MT9V032_READ_MODE_COLUMN_BIN_SHIFT) % 4294967296)

/-- The function `mt9v032_s_stream`.  Returns the return value, the bus
history and the driver state; `none` is a division by zero. -/
def mt9v032_s_stream (bus : Bus) (log : List Access) (dev : mt9v032) (enable : Int) :
    Option (Int × List Access × mt9v032) :=
  let mode := MT9V032_CHIP_CONTROL_MASTER_MODE ||| MT9V032_CHIP_CONTROL_DOUT_ENABLE
    ||| MT9V032_CHIP_CONTROL_SEQUENTIAL
  if enable = 0 then some (mt9v032_set_chip_control bus log dev mode 0)
  else do
    let hratio ← DIV_ROUND_CLOSEST dev.crop.width dev.format.width
    let vratio ← DIV_ROUND_CLOSEST dev.crop.height dev.format.height
    let (ret, log) := mt9v032_write bus log MT9V032_READ_MODE
      (Int.ofNat (read_mode_word hratio vratio))
    if ret < 0 then pure (ret, log, dev) else
    let (ret, log) := mt9v032_write bus log MT9V032_COLUMN_START dev.crop.left
    if ret < 0 then pure (ret, log, dev) else
    let (ret, log) := mt9v032_write bus log MT9V032_ROW_START dev.crop.top
    if ret < 0 then pure (ret, log, dev) else
    let (ret, log) := mt9v032_write bus log MT9V032_WINDOW_WIDTH dev.crop.width
    if ret < 0 then pure (ret, log, dev) else
    let (ret, log) := mt9v032_write bus log MT9V032_WINDOW_HEIGHT dev.crop.height
    if ret < 0 then pure (ret, log, dev) else
    let (ret, log) := mt9v032_write bus log MT9V032_HORIZONTAL_BLANKING
      (kmax 43 (s32 (660 - dev.crop.width)))
    if ret < 0 then pure (ret, log, dev) else
    pure (mt9v032_set_chip_control bus log dev 0 mode)

/-! ## Construction -/

/-- The instance built by `mt9v032_probe`: zeroed by `kzalloc`, then default
crop, default format and both automatic loops enabled in the AEC/AGC shadow. -/
def mt9v032_probe : mt9v032 :=
  { format := { width := u32 MT9V032_WINDOW_WIDTH_DEF, height := u32 MT9V032_WINDOW_HEIGHT_DEF }
    crop := { left := MT9V032_COLUMN_START_DEF, top := MT9V032_ROW_START_DEF,
              width := MT9V032_WINDOW_WIDTH_DEF, height := MT9V032_WINDOW_HEIGHT_DEF }
    power_count := 0
    chip_control := 0
    aec_agc := 3 }

/-- The try state written by `mt9v032_open`. -/
def mt9v032_open_fh : v4l2_subdev_fh :=
  { try_format := { width := u32 MT9V032_WINDOW_WIDTH_DEF,
                    height := u32 MT9V032_WINDOW_HEIGHT_DEF }
    try_crop := { left := MT9V032_COLUMN_START_DEF, top := MT9V032_ROW_START_DEF,
                  width := MT9V032_WINDOW_WIDTH_DEF, height := MT9V032_WINDOW_HEIGHT_DEF } }

/-- The state after `mt9v032_probe` and `mt9v032_open`: default active and try
configuration. -/
def default_ctx : Ctx := { dev := mt9v032_probe, fh := mt9v032_open_fh }

/-! ## Control surface -/

/-- Modelled from the spec: the identifiers of the controls the driver
registers (`V4L2_CID_AUTOGAIN`, `V4L2_CID_GAIN`, `V4L2_CID_EXPOSURE_AUTO`,
`V4L2_CID_EXPOSURE` from `linux/videodev2.h`, not among the sources, and the
driver's `V4L2_CID_TEST_PATTERN`): auto-gain, analog-gain, auto-exposure,
exposure and test-pattern of the spec's control table.  `other` stands for
any identifier that `mt9v032_s_ctrl` sends to its `default` label. -/
inductive v4l2_cid where
  | V4L2_CID_AUTOGAIN
  | V4L2_CID_GAIN
  | V4L2_CID_EXPOSURE_AUTO
  | V4L2_CID_EXPOSURE
  | V4L2_CID_TEST_PATTERN
  | other
  deriving DecidableEq, Repr

open v4l2_cid

/-- Modelled from the spec: the values of `enum v4l2_exposure_auto_type`
(`linux/videodev2.h`, not among the sources) that the auto-exposure control
takes: `auto` is 0. -/
def V4L2_EXPOSURE_AUTO : Int := 0

/-- Modelled from the spec: `manual` is 1 (see `V4L2_EXPOSURE_AUTO`). -/
def V4L2_EXPOSURE_MANUAL : Int := 1

/-- Modelled from the spec: the error number `ENODEV` (`asm-generic/errno-base.h`,
not among the sources), the not-present error. -/
def ENODEV : Int := 19

/-- The function `mt9v032_read`: a 16-bit register read; returns the transport's
result (the register contents, or a negative error number) and the extended
history. -/
def mt9v032_read (bus : Bus) (log : List Access) (reg : Nat) : Int × List Access :=
  let log1 := log ++ [Access.read reg]
  (bus log1, log1)

/-- The function `mt9v032_update_aec_agc`: read-modify-write of AEC_AGC_ENABLE
through the shadow.  `value |= which` or `value &= ~which` on a `u16`. -/
def mt9v032_update_aec_agc (bus : Bus) (log : List Access) (dev : mt9v032)
    (which : Nat) (enable : Int) : Int × List Access × mt9v032 :=
  let value :=
    if enable ≠ 0 then (dev.aec_agc ||| which) % 65536
    else (dev.aec_agc &&& (65535 ^^^ which)) % 65536
  let (ret, log1) := mt9v032_write bus log MT9V032_AEC_AGC_ENABLE (Int.ofNat value)
  if ret < 0 then (ret, log1, dev)
  else (0, log1, { dev with aec_agc := value })

/-- The `u16 data` that `mt9v032_s_ctrl` computes for the test-pattern control
from `ctrl->val`. -/
def test_pattern_data (val : Int) : Nat :=
  if val = 0 then 0
  else if val = 1 then
    (MT9V032_TEST_PATTERN_GRAY_VERTICAL ||| MT9V032_TEST_PATTERN_ENABLE) % 65536
  else if val = 2 then
    (MT9V032_TEST_PATTERN_GRAY_HORIZONTAL ||| MT9V032_TEST_PATTERN_ENABLE) % 65536
  else if val = 3 then
    (MT9V032_TEST_PATTERN_GRAY_DIAGONAL ||| MT9V032_TEST_PATTERN_ENABLE) % 65536
  else
    ((((u32 val <<< MT9V032_TEST_PATTERN_DATA_SHIFT) % 4294967296)
      ||| MT9V032_TEST_PATTERN_USE_DATA
      ||| MT9V032_TEST_PATTERN_ENABLE
      ||| MT9V032_TEST_PATTERN_FLIP)) % 65536

/-- The function `mt9v032_s_ctrl`: applies one control value (`ctrl->id`,
`ctrl->val`). -/
def mt9v032_s_ctrl (bus : Bus) (log : List Access) (dev : mt9v032)
    (id : v4l2_cid) (val : Int) : Int × List Access × mt9v032 :=
  match id with
  | V4L2_CID_AUTOGAIN => mt9v032_update_aec_agc bus log dev MT9V032_AGC_ENABLE val
  | V4L2_CID_GAIN =>
    let (ret, log1) := mt9v032_write bus log MT9V032_ANALOG_GAIN val
    (ret, log1, dev)
  | V4L2_CID_EXPOSURE_AUTO => mt9v032_update_aec_agc bus log dev MT9V032_AEC_ENABLE val
  | V4L2_CID_EXPOSURE =>
    let (ret, log1) := mt9v032_write bus log MT9V032_TOTAL_SHUTTER_WIDTH val
    (ret, log1, dev)
  | V4L2_CID_TEST_PATTERN =>
    let (ret, log1) := mt9v032_write bus log MT9V032_TEST_PATTERN
      (Int.ofNat (test_pattern_data val))
    (ret, log1, dev)
  | other => (0, log, dev)

/-- Modelled from the spec: the framework function `v4l2_ctrl_handler_setup`
(`drivers/media/video/v4l2-ctrls.c`, not among the sources), the replay of all
cached control values through the control surface: `mt9v032_s_ctrl` is called
for each control of the handler in creation order with its cached value, and
the replay stops at the first call that does not return 0. -/
def v4l2_ctrl_handler_setup (bus : Bus) (log : List Access) (dev : mt9v032) :
    List (v4l2_cid × Int) → Int × List Access × mt9v032
  | [] => (0, log, dev)
  | (id, val) :: rest =>
    match mt9v032_s_ctrl bus log dev id val with
    | (ret, log1, dev1) =>
      if ret ≠ 0 then (ret, log1, dev1)
      else v4l2_ctrl_handler_setup bus log1 dev1 rest

/-! ## Lifecycle -/

/-- The collaborators of the lifecycle functions, parameters of the model: the
bus transport, the result of `devm_clk_get` (`none` for a valid clock handle,
`some e` for an error pointer with `PTR_ERR` equal to `e`), and the two
constants `CSI_SUBDEV_PWR_ON` and `CSI_SUBDEV_PWR_OFF` of the sunxi-vfe headers
(not among the sources). -/
structure Env where
  bus : Bus
  clk_get : Option Int
  CSI_SUBDEV_PWR_ON : Int
  CSI_SUBDEV_PWR_OFF : Int

/-- The driver instance together with what the lifecycle functions use besides
the fields of `mt9v032` above: the global `on_done`, the platform option
`pdata && pdata->clk_pol`, and the controls of the handler `ctrls` with their
cached values, in creation order. -/
structure Driver where
  dev : mt9v032
  on_done : Bool
  clk_pol : Bool
  ctrls : List (v4l2_cid × Int)
  deriving DecidableEq, Repr

/-- The function `mt9v032_power_on`.  The value read from CHIP_VERSION is stored
in a local that is never used. -/
def mt9v032_power_on (bus : Bus) (log : List Access) (d : Driver) :
    Int × List Access × Driver :=
  if d.on_done then (0, log, d)
  else
    let log := log ++ [Access.clk_prepare_enable]
    let (_data, log) := mt9v032_read bus log MT9V032_CHIP_VERSION
    let (ret, log) := mt9v032_write bus log MT9V032_RESET 1
    if ret < 0 then (ret, log, d) else
    let (ret, log) := mt9v032_write bus log MT9V032_RESET 0
    if ret < 0 then (ret, log, d) else
    let d := { d with on_done := true }
    let (ret, log) := mt9v032_write bus log MT9V032_CHIP_CONTROL 0
    (ret, log, d)

/-- The function `mt9v032_power_off`. -/
def mt9v032_power_off (log : List Access) : List Access :=
  log ++ [Access.clk_disable_unprepare]

/-- The function `__mt9v032_set_power`. -/
def __mt9v032_set_power (env : Env) (log : List Access) (d : Driver) (on_ : Bool) :
    Int × List Access × Driver :=
  match env.clk_get with
  | some e => (e, log, d)
  | none =>
    if !on_ then (0, mt9v032_power_off log, d)
    else
      let (ret, log, d) := mt9v032_power_on env.bus log d
      if ret < 0 then (ret, log, d) else
      let (ret, log) :=
        if d.clk_pol then
          mt9v032_write env.bus log MT9V032_PIXEL_CLOCK
            (Int.ofNat MT9V032_PIXEL_CLOCK_INV_PXL_CLK)
        else (0, log)
      if ret < 0 then (ret, log, d) else
      let (ret, log) := mt9v032_write env.bus log MT9V032_ROW_NOISE_CORR_CONTROL 0
      if ret < 0 then (ret, log, d) else
      let (ret, log, dev) := v4l2_ctrl_handler_setup env.bus log d.dev d.ctrls
      (ret, log, { d with dev := dev })

/-- The value of `on` after the first `if` chain of `mt9v032_set_power` (the
parameter is written `on_` here); `none` is the early `return 0`. -/
def set_power_on_arg (env : Env) (on_ : Int) : Option Int :=
  if on_ = env.CSI_SUBDEV_PWR_ON then some 1
  else if env.CSI_SUBDEV_PWR_OFF ≠ 0 then some 0
  else if on_ ≠ 0 ∧ on_ ≠ 1 then none
  else some on_

/-- The function `mt9v032_set_power`.  The statement that updates the power
count is commented out in the source, so `power_count` is only read. -/
def mt9v032_set_power (env : Env) (log : List Access) (d : Driver) (on_ : Int) :
    Int × List Access × Driver :=
  match set_power_on_arg env on_ with
  | none => (0, log, d)
  | some on1 =>
    if d.dev.power_count = (if on1 = 0 then 1 else 0) then
      __mt9v032_set_power env log d (on1 ≠ 0)
    else (0, log, d)

/-- The function `mt9v032_registered`: power-on sequence, then the check of
CHIP_VERSION. -/
def mt9v032_registered (bus : Bus) (log : List Access) (d : Driver) :
    Int × List Access × Driver :=
  let (ret, log, d) := mt9v032_power_on bus log d
  if ret < 0 then (ret, log, d) else
  let (data, log) := mt9v032_read bus log MT9V032_CHIP_VERSION
  if data ≠ MT9V032_CHIP_ID_REV1 ∧ data ≠ MT9V032_CHIP_ID_REV3 ∧
      data ≠ MT9V034_CHIP_ID_REV1 then (-ENODEV, log, d)
  else (ret, log, d)

/-- The function `mt9v032_open`: resets the try state of the file handle to the
defaults and powers the sensor on. -/
def mt9v032_open (env : Env) (log : List Access) (d : Driver) :
    (Int × List Access × Driver) × v4l2_subdev_fh :=
  (mt9v032_set_power env log d 1, mt9v032_open_fh)

/-- The function `mt9v032_init`. -/
def mt9v032_init (bus : Bus) (log : List Access) (dev : mt9v032) :
    Int × List Access × mt9v032 :=
  mt9v032_set_chip_control bus log dev 0
    (MT9V032_CHIP_CONTROL_MASTER_MODE ||| MT9V032_CHIP_CONTROL_DOUT_ENABLE
      ||| MT9V032_CHIP_CONTROL_SEQUENTIAL)

/-- The controls created by `mt9v032_probe`, in creation order, with their
default values. -/
def mt9v032_probe_ctrls : List (v4l2_cid × Int) :=
  [(V4L2_CID_AUTOGAIN, 1), (V4L2_CID_GAIN, MT9V032_ANALOG_GAIN_DEF),
   (V4L2_CID_EXPOSURE_AUTO, V4L2_EXPOSURE_AUTO),
   (V4L2_CID_EXPOSURE, MT9V032_TOTAL_SHUTTER_WIDTH_DEF), (V4L2_CID_TEST_PATTERN, 0)]

/-- The driver right after `mt9v032_probe`, before any power-on: `on_done` still
0; `clk_pol` is the pixel-clock inversion option of the platform data. -/
def mt9v032_fresh (clk_pol : Bool) : Driver :=
  { dev := mt9v032_probe, on_done := false, clk_pol := clk_pol,
    ctrls := mt9v032_probe_ctrls }

/-- The clock is enabled after a history when it holds more
`clk_prepare_enable` than `clk_disable_unprepare` operations. -/
def clk_enabled (log : List Access) : Bool :=
  decide (log.count Access.clk_disable_unprepare < log.count Access.clk_prepare_enable)

/-- The number of `mt9v032_set_power(1)` calls of a sequence of requests that are
not matched by a later `mt9v032_set_power(0)`: calls with 1 minus calls with 0. -/
def power_surplus (ons : List Int) : Int :=
  Int.ofNat (ons.count 1) - Int.ofNat (ons.count 0)

/-- A sequence of `mt9v032_set_power` calls, threading the history and the
driver. -/
def set_power_seq (env : Env) : List Access → Driver → List Int → List Access × Driver
  | log, d, [] => (log, d)
  | log, d, on_ :: rest =>
    match mt9v032_set_power env log d on_ with
    | (_, log1, d1) => set_power_seq env log1 d1 rest

/-- The seven register writes of a stream start, in program order, for the
ratios `hratio` and `vratio`. -/
def stream_start_writes (dev : mt9v032) (hratio vratio : Nat) : List Access :=
  [Access.write MT9V032_READ_MODE (u16 (Int.ofNat (read_mode_word hratio vratio))),
   Access.write MT9V032_COLUMN_START (u16 dev.crop.left),
   Access.write MT9V032_ROW_START (u16 dev.crop.top),
   Access.write MT9V032_WINDOW_WIDTH (u16 dev.crop.width),
   Access.write MT9V032_WINDOW_HEIGHT (u16 dev.crop.height),
   Access.write MT9V032_HORIZONTAL_BLANKING (u16 (kmax 43 (s32 (660 - dev.crop.width)))),
   Access.write MT9V032_CHIP_CONTROL (dev.chip_control ||| 0x188)]

/-- A bus on which every write succeeds (returns 0) and every read returns
`version`. -/
def good_bus (version : Int) : Bus := fun l =>
  match l.getLast? with
  | some (Access.read _) => version
  | _ => 0

/-- Collaborators for the concrete scenarios: `good_bus`, a valid clock handle,
`CSI_SUBDEV_PWR_ON = 1` and `CSI_SUBDEV_PWR_OFF = 0`. -/
def good_env (version : Int) : Env :=
  { bus := good_bus version, clk_get := none, CSI_SUBDEV_PWR_ON := 1, CSI_SUBDEV_PWR_OFF := 0 }

/-- The last value written to register `reg` in a history, if any. -/
def last_write (reg : Nat) (log : List Access) : Option Nat :=
  log.reverse.findSome? fun a =>
    match a with
    | Access.write r v => if r = reg then some v else none
    | _ => none

/-- The register writes of the power-on sequence run by `mt9v032_set_power(1)` on
a driver whose `on_done` is still 0, before the control replay: RESET twice,
CHIP_CONTROL, PIXEL_CLOCK when inversion is requested, ROW_NOISE_CORR_CONTROL. -/
def power_on_writes (clk_pol : Bool) : List Access :=
  [Access.write MT9V032_RESET 1, Access.write MT9V032_RESET 0,
   Access.write MT9V032_CHIP_CONTROL 0] ++
  (if clk_pol then [Access.write MT9V032_PIXEL_CLOCK MT9V032_PIXEL_CLOCK_INV_PXL_CLK] else []) ++
  [Access.write MT9V032_ROW_NOISE_CORR_CONTROL 0]

/-! ## Enumeration and frame interval -/

/-- Modelled from the spec: the error number `EINVAL` (`asm-generic/errno-base.h`,
not among the sources), the invalid-argument error. -/
def EINVAL : Int := 22

/-- Modelled from the spec: the media-bus code `V4L2_MBUS_FMT_SGRBG10_1X10`
(`linux/v4l2-mediabus.h`, not among the sources), the single code
`BAYER-GRBG-10` the driver enumerates. -/
def V4L2_MBUS_FMT_SGRBG10_1X10 : Nat := 0x300a

/-- Modelled from the spec: the buffer type `V4L2_BUF_TYPE_VIDEO_CAPTURE`
(`linux/videodev2.h`, not among the sources), the video-capture type. -/
def V4L2_BUF_TYPE_VIDEO_CAPTURE : Nat := 1

/-- Modelled from the spec: the structure `struct v4l2_subdev_frame_size_enum`
(`linux/v4l2-subdev.h`, not among the sources), the size-enumeration request
and answer; all members are 32-bit unsigned. -/
structure v4l2_subdev_frame_size_enum where
  index : Nat
  code : Nat
  min_width : Nat
  max_width : Nat
  min_height : Nat
  max_height : Nat
  deriving DecidableEq, Repr

/-- The function `mt9v032_enum_frame_size`.  The divisions are `int` by
`__u32`, hence unsigned; `none` is a division by zero. -/
def mt9v032_enum_frame_size (fse : v4l2_subdev_frame_size_enum) :
    Option (Int × v4l2_subdev_frame_size_enum) :=
  if fse.index ≥ 8 ∨ fse.code ≠ V4L2_MBUS_FMT_SGRBG10_1X10 then some (-EINVAL, fse)
  else do
    let w ← udiv MT9V032_WINDOW_WIDTH_DEF fse.index
    let fse := { fse with min_width := w }
    let fse := { fse with max_width := fse.min_width }
    let h ← udiv MT9V032_WINDOW_HEIGHT_DEF fse.index
    let fse := { fse with min_height := h }
    let fse := { fse with max_height := fse.min_height }
    pure (0, fse)

/-- Modelled from the spec: the structure `struct v4l2_fract`
(`linux/videodev2.h`, not among the sources): a fraction of two 32-bit
unsigned integers, the time per frame `numerator / denominator`. -/
structure v4l2_fract where
  numerator : Nat
  denominator : Nat
  deriving DecidableEq, Repr

/-- Modelled from the spec: the members of `struct v4l2_streamparm`
(`linux/videodev2.h`, not among the sources) that the frame-interval
operations use: the buffer type and `parm.capture.timeperframe`. -/
structure v4l2_streamparm where
  type : Nat
  timeperframe : v4l2_fract
  deriving DecidableEq, Repr

/-- The function `mt9v032_s_parm`.  Both divisions are unsigned, `div` is an
`unsigned char`; `none` is a division by zero.  The function stores nothing
in the driver instance. -/
def mt9v032_s_parm (parms : v4l2_streamparm) : Option (Int × v4l2_streamparm) :=
  if parms.type ≠ V4L2_BUF_TYPE_VIDEO_CAPTURE then some (-EINVAL, parms)
  else
    let tpf : v4l2_fract :=
      if parms.timeperframe.numerator = 0 ∨ parms.timeperframe.denominator = 0 then
        { numerator := 1, denominator := 60 }
      else parms.timeperframe
    let parms := { parms with timeperframe := tpf }
    do
      let q ← udiv (Int.ofNat tpf.denominator) tpf.numerator
      let d ← udiv 60 q
      let div := d % 256
      if div > 15 ∨ div = 0 then pure (-EINVAL, parms)
      else pure (0, parms)

/-- The function `mt9v032_g_parm`: always reports the time per frame 1/60. -/
def mt9v032_g_parm (parms : v4l2_streamparm) : Int × v4l2_streamparm :=
  if parms.type ≠ V4L2_BUF_TYPE_VIDEO_CAPTURE then (-EINVAL, parms)
  else (0, { parms with timeperframe := { numerator := 1, denominator := 60 } })

/-! ## Arithmetic of the helper macros -/

theorem land_even_mask (n : Nat) (h : n < 4294967296) :
    n &&& 4294967294 = n - n % 2 := by
  have h1 : (n &&& 4294967294) % 2 ≠ 1 := by
    intro hc
    have := (Nat.and_mod_two_eq_one.mp hc).2
    omega
  have h2 : (n &&& 4294967294) / 2 = n / 2 := by
    rw [Nat.and_div_two]
    have h3 : (4294967294 : Nat) / 2 = 2 ^ 31 - 1 := by norm_num
    rw [h3, Nat.and_pow_two_sub_one_eq_mod]
    apply Nat.mod_eq_of_lt
    omega
  omega

/-- At alignment 2, `ALIGN` on `unsigned int` clears bit 0 of the wrapped `x + 1`. -/
theorem ALIGN_u32_two (x : Nat) :
    ALIGN_u32 x 2 = (x + 1) % 4294967296 - ((x + 1) % 4294967296) % 2 := by
  unfold ALIGN_u32
  have hm : (4294967295 ^^^ (2 - 1) : Nat) = 4294967294 := by decide
  rw [hm]
  exact land_even_mask _ (Nat.mod_lt _ (by norm_num))

/-- At alignment 2, `ALIGN` on `int` clears bit 0 of the wrapped `x + 1`. -/
theorem ALIGN_s32_two (x : Int) :
    ALIGN_s32 x 2 = s32 (s32 (x + 1) - s32 (x + 1) % 2) := by
  unfold ALIGN_s32
  have hm : (4294967295 ^^^ (2 - 1) : Nat) = 4294967294 := by decide
  rw [hm]
  have hb : u32 (x + (Int.ofNat 2 - 1)) < 4294967296 := by
    unfold u32; omega
  rw [land_even_mask _ hb]
  unfold s32 u32
  simp only [Int.ofNat_eq_coe]
  omega

theorem clamp_bounds (v lo hi : Int) (h : lo ≤ hi) :
    lo ≤ clamp v lo hi ∧ clamp v lo hi ≤ hi := by
  unfold clamp
  simp only []
  split_ifs <;> omega

/-! ## Selected-state accessors -/

theorem get_crop_set_crop (c : Ctx) (which : v4l2_subdev_format_whence) (r : v4l2_rect) :
    __mt9v032_get_pad_crop (set_pad_crop c which r) which = r := by
  cases which <;> rfl

theorem get_crop_set_format (c : Ctx) (which : v4l2_subdev_format_whence)
    (f : v4l2_mbus_framefmt) :
    __mt9v032_get_pad_crop (set_pad_format c which f) which =
      __mt9v032_get_pad_crop c which := by
  cases which <;> rfl

theorem get_format_set_format (c : Ctx) (which : v4l2_subdev_format_whence)
    (f : v4l2_mbus_framefmt) :
    __mt9v032_get_pad_format (set_pad_format c which f) which = f := by
  cases which <;> rfl

theorem get_format_set_crop (c : Ctx) (which : v4l2_subdev_format_whence) (r : v4l2_rect) :
    __mt9v032_get_pad_format (set_pad_crop c which r) which =
      __mt9v032_get_pad_format c which := by
  cases which <;> rfl

/-! ## `mt9v032_set_crop` -/

/-- The rectangle returned by `mt9v032_set_crop` is the clamped rectangle. -/
theorem set_crop_returns (c : Ctx) (which : v4l2_subdev_format_whence) (req : v4l2_rect) :
    (mt9v032_set_crop c which req).2 = set_crop_clamped req := rfl

/-- The rectangle returned by `mt9v032_set_crop` is the one it installs in the
selected (try or active) state. -/
theorem set_crop_installs (c : Ctx) (which : v4l2_subdev_format_whence) (req : v4l2_rect) :
    __mt9v032_get_pad_crop (mt9v032_set_crop c which req).1 which =
      (mt9v032_set_crop c which req).2 := by
  unfold mt9v032_set_crop
  exact get_crop_set_crop _ _ _

/-- The format stored by `mt9v032_set_crop` in the selected state. -/
theorem set_crop_format (c : Ctx) (which : v4l2_subdev_format_whence) (req : v4l2_rect) :
    __mt9v032_get_pad_format (mt9v032_set_crop c which req).1 which =
      if (set_crop_clamped req).width ≠ (__mt9v032_get_pad_crop c which).width ∨
        (set_crop_clamped req).height ≠ (__mt9v032_get_pad_crop c which).height
      then { width := u32 (set_crop_clamped req).width,
             height := u32 (set_crop_clamped req).height }
      else __mt9v032_get_pad_format c which := by
  unfold mt9v032_set_crop
  dsimp only
  rw [get_format_set_crop]
  split_ifs
  · exact get_format_set_format _ _ _
  · rfl

/-- The clamped rectangle with the limits spelled out. -/
theorem set_crop_clamped_eq (req : v4l2_rect) :
    set_crop_clamped req =
      { left := clamp (s32 (ALIGN_s32 (s32 (req.left + 1)) 2 - 1)) 1 752
        top := clamp (s32 (ALIGN_s32 (s32 (req.top + 1)) 2 - 1)) 4 482
        width := kmin (clamp (ALIGN_s32 req.width 2) 1 752)
          (s32 (782 - clamp (s32 (ALIGN_s32 (s32 (req.left + 1)) 2 - 1)) 1 752))
        height := kmin (clamp (ALIGN_s32 req.height 2) 1 480)
          (s32 (492 - clamp (s32 (ALIGN_s32 (s32 (req.top + 1)) 2 - 1)) 4 482)) } := rfl

/-- The clamped rectangle lies inside the pixel array and within the register
limits. -/
theorem set_crop_clamped_bounds (req : v4l2_rect) :
    1 ≤ (set_crop_clamped req).left ∧ (set_crop_clamped req).left ≤ 752 ∧
    4 ≤ (set_crop_clamped req).top ∧ (set_crop_clamped req).top ≤ 482 ∧
    1 ≤ (set_crop_clamped req).width ∧ (set_crop_clamped req).width ≤ 752 ∧
    1 ≤ (set_crop_clamped req).height ∧ (set_crop_clamped req).height ≤ 480 ∧
    (set_crop_clamped req).left + (set_crop_clamped req).width ≤ 782 ∧
    (set_crop_clamped req).top + (set_crop_clamped req).height ≤ 492 := by
  have hl := clamp_bounds (s32 (ALIGN_s32 (s32 (req.left + 1)) 2 - 1)) 1 752 (by norm_num)
  have ht := clamp_bounds (s32 (ALIGN_s32 (s32 (req.top + 1)) 2 - 1)) 4 482 (by norm_num)
  have hw := clamp_bounds (ALIGN_s32 req.width 2) 1 752 (by norm_num)
  have hh := clamp_bounds (ALIGN_s32 req.height 2) 1 480 (by norm_num)
  rw [set_crop_clamped_eq]
  dsimp only
  generalize clamp (s32 (ALIGN_s32 (s32 (req.left + 1)) 2 - 1)) 1 752 = l at *
  generalize clamp (s32 (ALIGN_s32 (s32 (req.top + 1)) 2 - 1)) 4 482 = t at *
  generalize clamp (ALIGN_s32 req.width 2) 1 752 = w at *
  generalize clamp (ALIGN_s32 req.height 2) 1 480 = h at *
  unfold kmin s32
  split_ifs <;> omega

/-- C1. Geometry closure (bounds): whatever rectangle is requested (in
particular any four 32-bit signed values) and whichever state is selected,
the rectangle that `mt9v032_set_crop` returns is the one it installs, and it
satisfies `1 ≤ left ≤ 752`, `4 ≤ top ≤ 482`, `1 ≤ width ≤ 752`,
`1 ≤ height ≤ 480`, `left + width ≤ 782` and `top + height ≤ 492`. -/
theorem set_crop_geometry_bounds (c : Ctx) (which : v4l2_subdev_format_whence)
    (req : v4l2_rect) :
    __mt9v032_get_pad_crop (mt9v032_set_crop c which req).1 which =
      (mt9v032_set_crop c which req).2 ∧
    1 ≤ (mt9v032_set_crop c which req).2.left ∧
    (mt9v032_set_crop c which req).2.left ≤ 752 ∧
    4 ≤ (mt9v032_set_crop c which req).2.top ∧
    (mt9v032_set_crop c which req).2.top ≤ 482 ∧
    1 ≤ (mt9v032_set_crop c which req).2.width ∧
    (mt9v032_set_crop c which req).2.width ≤ 752 ∧
    1 ≤ (mt9v032_set_crop c which req).2.height ∧
    (mt9v032_set_crop c which req).2.height ≤ 480 ∧
    (mt9v032_set_crop c which req).2.left + (mt9v032_set_crop c which req).2.width ≤ 782 ∧
    (mt9v032_set_crop c which req).2.top + (mt9v032_set_crop c which req).2.height ≤ 492 :=
  ⟨set_crop_installs c which req, set_crop_clamped_bounds req⟩

/-- C2. Bayer-phase preservation fails on the code: from the default state the
request `{left = 1000, top = 0, width = 0, height = 0}` is answered with
`{752, 4, 1, 1}`, whose left and top are even and whose width and height are
odd, because the clamp limits 752, 4, 482 and 1 are applied after the
alignment. -/
theorem set_crop_breaks_bayer_phase :
    (mt9v032_set_crop default_ctx V4L2_SUBDEV_FORMAT_ACTIVE
      { left := 1000, top := 0, width := 0, height := 0 }).2 =
        { left := 752, top := 4, width := 1, height := 1 } ∧
    (mt9v032_set_crop default_ctx V4L2_SUBDEV_FORMAT_ACTIVE
      { left := 1000, top := 0, width := 0, height := 0 }).2.left % 2 = 0 ∧
    (mt9v032_set_crop default_ctx V4L2_SUBDEV_FORMAT_ACTIVE
      { left := 1000, top := 0, width := 0, height := 0 }).2.top % 2 = 0 ∧
    (mt9v032_set_crop default_ctx V4L2_SUBDEV_FORMAT_ACTIVE
      { left := 1000, top := 0, width := 0, height := 0 }).2.width % 2 = 1 ∧
    (mt9v032_set_crop default_ctx V4L2_SUBDEV_FORMAT_ACTIVE
      { left := 1000, top := 0, width := 0, height := 0 }).2.height % 2 = 1 := by
  decide

/-- C3. Idempotence fails on the code: from the default state the request
`{left = 1, top = 0, width = 0, height = 0}` is answered with `{1, 4, 1, 1}`
(format reset to 1x1), and requesting that answer again is answered with
`{1, 5, 2, 2}` and resets the format to 2x2: the returned rectangle, the stored
crop and the stored format all change on the second call. -/
theorem set_crop_not_idempotent :
    mt9v032_set_crop default_ctx V4L2_SUBDEV_FORMAT_ACTIVE
      { left := 1, top := 0, width := 0, height := 0 } =
      ({ default_ctx with dev := { mt9v032_probe with
            crop := { left := 1, top := 4, width := 1, height := 1 }
            format := { width := 1, height := 1 } } },
       { left := 1, top := 4, width := 1, height := 1 }) ∧
    mt9v032_set_crop
      (mt9v032_set_crop default_ctx V4L2_SUBDEV_FORMAT_ACTIVE
        { left := 1, top := 0, width := 0, height := 0 }).1 V4L2_SUBDEV_FORMAT_ACTIVE
      (mt9v032_set_crop default_ctx V4L2_SUBDEV_FORMAT_ACTIVE
        { left := 1, top := 0, width := 0, height := 0 }).2 =
      ({ default_ctx with dev := { mt9v032_probe with
            crop := { left := 1, top := 5, width := 2, height := 2 }
            format := { width := 2, height := 2 } } },
       { left := 1, top := 5, width := 2, height := 2 }) := by
  decide

theorem set_pad_crop_self (c : Ctx) (which : v4l2_subdev_format_whence) (r : v4l2_rect)
    (h : __mt9v032_get_pad_crop c which = r) : set_pad_crop c which r = c := by
  subst h
  cases which <;> rfl

/-- A clamped rectangle with odd top and even size is a fixed point of the
clamping. -/
theorem set_crop_clamped_fixed (req : v4l2_rect)
    (ht : (set_crop_clamped req).top % 2 = 1)
    (hw : (set_crop_clamped req).width % 2 = 0)
    (hh : (set_crop_clamped req).height % 2 = 0) :
    set_crop_clamped (set_crop_clamped req) = set_crop_clamped req := by
  have hb := set_crop_clamped_bounds req
  have hl : (set_crop_clamped req).left % 2 = 1 ∨ (set_crop_clamped req).left = 752 := by
    rw [set_crop_clamped_eq]
    dsimp only
    rw [ALIGN_s32_two]
    unfold clamp s32
    dsimp only
    split_ifs <;> omega
  generalize set_crop_clamped req = r at *
  obtain ⟨l, t, w, h⟩ := r
  dsimp only at *
  rw [set_crop_clamped_eq]
  dsimp only
  rw [ALIGN_s32_two, ALIGN_s32_two, ALIGN_s32_two, ALIGN_s32_two]
  have e1 : clamp (s32 (s32 (s32 (s32 (l + 1) + 1) - s32 (s32 (l + 1) + 1) % 2) - 1)) 1 752 = l := by
    unfold clamp s32; dsimp only; split_ifs <;> omega
  have e2 : clamp (s32 (s32 (s32 (s32 (t + 1) + 1) - s32 (s32 (t + 1) + 1) % 2) - 1)) 4 482 = t := by
    unfold clamp s32; dsimp only; split_ifs <;> omega
  have e3 : clamp (s32 (s32 (w + 1) - s32 (w + 1) % 2)) 1 752 = w := by
    unfold clamp s32; dsimp only; split_ifs <;> omega
  have e4 : clamp (s32 (s32 (h + 1) - s32 (h + 1) % 2)) 1 480 = h := by
    unfold clamp s32; dsimp only; split_ifs <;> omega
  rw [e1, e2, e3, e4]
  have e5 : kmin w (s32 (782 - l)) = w := by
    unfold kmin s32; split_ifs <;> omega
  have e6 : kmin h (s32 (492 - t)) = h := by
    unfold kmin s32; split_ifs <;> omega
  rw [e5, e6]

/-- Whenever the rectangle returned by `mt9v032_set_crop` has the Bayer phase
(odd top, even width and height), requesting it again changes nothing. -/
theorem set_crop_idempotent_of_phase (c : Ctx) (which : v4l2_subdev_format_whence)
    (req : v4l2_rect)
    (ht : (mt9v032_set_crop c which req).2.top % 2 = 1)
    (hw : (mt9v032_set_crop c which req).2.width % 2 = 0)
    (hh : (mt9v032_set_crop c which req).2.height % 2 = 0) :
    mt9v032_set_crop (mt9v032_set_crop c which req).1 which (mt9v032_set_crop c which req).2 =
      ((mt9v032_set_crop c which req).1, (mt9v032_set_crop c which req).2) := by
  have hfix := set_crop_clamped_fixed req ht hw hh
  have hinst := set_crop_installs c which req
  rw [set_crop_returns] at hinst ⊢
  generalize (mt9v032_set_crop c which req).1 = c1 at *
  unfold mt9v032_set_crop
  dsimp only
  rw [hfix, hinst, if_neg (by simp), set_pad_crop_self _ _ _ hinst]
/-- C7. Crop change resets the format: after `mt9v032_set_crop` the stored crop
of the selected state is the clamped rectangle; if its (width, height) differs
from the previously stored crop size, the stored format width and height
are the new crop width and height (both positive, so the conversion to the
unsigned format fields is exact); otherwise the stored format is the previous
one. -/
theorem set_crop_resets_format (c : Ctx) (which : v4l2_subdev_format_whence)
    (req : v4l2_rect) :
    __mt9v032_get_pad_crop (mt9v032_set_crop c which req).1 which =
      (mt9v032_set_crop c which req).2 ∧
    __mt9v032_get_pad_format (mt9v032_set_crop c which req).1 which =
      (if (mt9v032_set_crop c which req).2.width ≠ (__mt9v032_get_pad_crop c which).width ∨
          (mt9v032_set_crop c which req).2.height ≠ (__mt9v032_get_pad_crop c which).height
       then { width := (mt9v032_set_crop c which req).2.width.toNat,
              height := (mt9v032_set_crop c which req).2.height.toNat }
       else __mt9v032_get_pad_format c which) ∧
    Int.ofNat (mt9v032_set_crop c which req).2.width.toNat =
      (mt9v032_set_crop c which req).2.width ∧
    Int.ofNat (mt9v032_set_crop c which req).2.height.toNat =
      (mt9v032_set_crop c which req).2.height := by
  have hb := set_crop_clamped_bounds req
  have hw : u32 (set_crop_clamped req).width = (set_crop_clamped req).width.toNat := by
    unfold u32; omega
  have hh : u32 (set_crop_clamped req).height = (set_crop_clamped req).height.toNat := by
    unfold u32; omega
  refine ⟨set_crop_installs c which req, ?_, ?_, ?_⟩
  · rw [set_crop_format, set_crop_returns, hw, hh]
  · rw [set_crop_returns]
    simp only [Int.ofNat_eq_coe]
    omega
  · rw [set_crop_returns]
    simp only [Int.ofNat_eq_coe]
    omega

/-! ## `mt9v032_set_format` -/

/-- The clamped size and rounded ratio that `mt9v032_set_format` computes for one
dimension of a crop of positive size. -/
theorem set_format_dim (cw : Int) (lo : Int) (req : Nat) (hlo : lo = 1)
    (h1 : 1 ≤ cw) (h2 : cw < 2147483648) :
    ∃ w ratio : Nat,
      set_format_clamped cw lo req = w ∧ max (cw.toNat / 8) 1 ≤ w ∧ w ≤ cw.toNat ∧
      set_format_ratio cw lo req = some ratio ∧ ratio = (cw.toNat + w / 2) / w ∧
      udiv cw ratio = some (cw.toNat / ratio) ∧
      1 ≤ ratio ∧ ratio ≤ cw.toNat ∧ ratio ≤ 15 ∧ (120 ≤ cw → ratio ≤ 8) := by
  subst hlo
  have ht : Int.tdiv cw 8 = cw / 8 := Int.tdiv_eq_ediv (by omega) (by norm_num)
  have hu : u32 cw = cw.toNat := by unfold u32; omega
  have hwb : max (cw.toNat / 8) 1 ≤ set_format_clamped cw 1 req ∧
      set_format_clamped cw 1 req ≤ cw.toNat := by
    unfold set_format_clamped clamp_t_uint kmax
    rw [ht, hu]
    have ha : u32 (Int.ofNat (ALIGN_u32 req 2)) = ALIGN_u32 req 2 := by
      rw [ALIGN_u32_two]; unfold u32; simp only [Int.ofNat_eq_coe]; omega
    rw [ha]
    generalize ALIGN_u32 req 2 = a
    have hk : u32 (if cw / 8 > 1 then cw / 8 else 1) = max (cw.toNat / 8) 1 := by
      unfold u32; split_ifs <;> omega
    rw [hk]
    dsimp only
    split_ifs <;> omega
  obtain ⟨hw1, hw2⟩ := hwb
  generalize hw : set_format_clamped cw 1 req = w at hw1 hw2
  have hw0 : 0 < w := by omega
  have hr : set_format_ratio cw 1 req = some ((cw.toNat + w / 2) / w) := by
    unfold set_format_ratio DIV_ROUND_CLOSEST
    rw [hw, hu, if_neg (by omega)]
    congr 2
    apply Nat.mod_eq_of_lt
    omega
  have hr1 : 1 ≤ (cw.toNat + w / 2) / w := by
    rw [Nat.le_div_iff_mul_le hw0]; omega
  have hr2 : (cw.toNat + w / 2) / w ≤ cw.toNat := by
    apply Nat.le_of_lt_succ
    rw [Nat.div_lt_iff_lt_mul hw0]
    have hm : cw.toNat ≤ cw.toNat * w := Nat.le_mul_of_pos_right _ hw0
    have he : cw.toNat.succ * w = cw.toNat * w + w := Nat.succ_mul _ _
    omega
  have hr3 : (cw.toNat + w / 2) / w ≤ 15 := by
    apply Nat.le_of_lt_succ
    rw [Nat.div_lt_iff_lt_mul hw0]
    omega
  have hr4 : 120 ≤ cw → (cw.toNat + w / 2) / w ≤ 8 := by
    intro h
    apply Nat.le_of_lt_succ
    rw [Nat.div_lt_iff_lt_mul hw0]
    omega
  refine ⟨w, _, rfl, hw1, hw2, hr, rfl, ?_, hr1, hr2, hr3, hr4⟩
  unfold udiv
  rw [if_neg (by omega), hu]

/-- The result of `mt9v032_set_format` once both ratios and both quotients are
known. -/
theorem set_format_of_ratios (c : Ctx) (which : v4l2_subdev_format_whence)
    (req : v4l2_mbus_framefmt) (hratio vratio w h : Nat)
    (h1 : set_format_ratio (__mt9v032_get_pad_crop c which).width
      MT9V032_WINDOW_WIDTH_MIN req.width = some hratio)
    (h2 : set_format_ratio (__mt9v032_get_pad_crop c which).height
      MT9V032_WINDOW_HEIGHT_MIN req.height = some vratio)
    (h3 : udiv (__mt9v032_get_pad_crop c which).width hratio = some w)
    (h4 : udiv (__mt9v032_get_pad_crop c which).height vratio = some h) :
    mt9v032_set_format c which req =
      some (set_pad_format c which { width := w, height := h },
            { width := w, height := h }) := by
  unfold mt9v032_set_format
  dsimp only
  rw [h1, h2]
  simp only [Option.bind_eq_bind, Option.some_bind]
  rw [h3, h4]
  rfl

/-- For a selected crop of positive size, `mt9v032_set_format` returns, and
installs the floor quotients of the crop size by the rounded ratios. -/
theorem set_format_spec (c : Ctx) (which : v4l2_subdev_format_whence)
    (req : v4l2_mbus_framefmt)
    (hw1 : 1 ≤ (__mt9v032_get_pad_crop c which).width)
    (hw2 : (__mt9v032_get_pad_crop c which).width < 2147483648)
    (hh1 : 1 ≤ (__mt9v032_get_pad_crop c which).height)
    (hh2 : (__mt9v032_get_pad_crop c which).height < 2147483648) :
    ∃ hratio vratio : Nat,
      set_format_ratio (__mt9v032_get_pad_crop c which).width
        MT9V032_WINDOW_WIDTH_MIN req.width = some hratio ∧
      set_format_ratio (__mt9v032_get_pad_crop c which).height
        MT9V032_WINDOW_HEIGHT_MIN req.height = some vratio ∧
      mt9v032_set_format c which req =
        some (set_pad_format c which
                { width := (__mt9v032_get_pad_crop c which).width.toNat / hratio,
                  height := (__mt9v032_get_pad_crop c which).height.toNat / vratio },
              { width := (__mt9v032_get_pad_crop c which).width.toNat / hratio,
                height := (__mt9v032_get_pad_crop c which).height.toNat / vratio }) ∧
      1 ≤ hratio ∧ hratio ≤ (__mt9v032_get_pad_crop c which).width.toNat ∧ hratio ≤ 15 ∧
      (120 ≤ (__mt9v032_get_pad_crop c which).width → hratio ≤ 8) ∧
      1 ≤ vratio ∧ vratio ≤ (__mt9v032_get_pad_crop c which).height.toNat ∧ vratio ≤ 15 ∧
      (120 ≤ (__mt9v032_get_pad_crop c which).height → vratio ≤ 8) := by
  obtain ⟨_, hr, -, -, -, hrw, -, hdw, a1, a2, a3, a4⟩ :=
    set_format_dim _ MT9V032_WINDOW_WIDTH_MIN req.width rfl hw1 hw2
  obtain ⟨_, vr, -, -, -, hrh, -, hdh, b1, b2, b3, b4⟩ :=
    set_format_dim _ MT9V032_WINDOW_HEIGHT_MIN req.height rfl hh1 hh2
  exact ⟨hr, vr, hrw, hrh, set_format_of_ratios c which req hr vr _ _ hrw hrh hdw hdh,
    a1, a2, a3, a4, b1, b2, b3, b4⟩

/-- C4 (counterexample). The installed width need not divide the crop width, and
the ratio need not lie in 1..8: from the default state (crop 752x480) a request
of 300x480 installs width 250, and 250 does not divide 752; after
`mt9v032_set_crop` to `{1, 5, 14, 480}` a request of 0x480 is given ratio 14 and
installs width 1. -/
theorem set_format_divisor_counterexample :
    (∃ c1 f, mt9v032_set_format default_ctx V4L2_SUBDEV_FORMAT_ACTIVE
        { width := 300, height := 480 } = some (c1, f) ∧
      c1.dev.crop.width = 752 ∧ c1.dev.format.width = 250 ∧
      ¬ (c1.dev.format.width ∣ c1.dev.crop.width.toNat)) ∧
    (∃ c1 f, mt9v032_set_format
        (mt9v032_set_crop default_ctx V4L2_SUBDEV_FORMAT_ACTIVE
          { left := 1, top := 5, width := 14, height := 480 }).1
        V4L2_SUBDEV_FORMAT_ACTIVE { width := 0, height := 480 } = some (c1, f) ∧
      c1.dev.crop.width = 14 ∧ c1.dev.format.width = 1 ∧
      set_format_ratio 14 MT9V032_WINDOW_WIDTH_MIN 0 = some 14 ∧
      ¬ (c1.dev.crop.width.toNat / c1.dev.format.width ≤ 8)) := by
  refine ⟨⟨_, _, rfl, ?_⟩, ⟨_, _, rfl, ?_⟩⟩ <;> decide

/-- C4 (amended). For every selected crop with `1 ≤ width ≤ 752` and
`1 ≤ height ≤ 480` and every requested size, `mt9v032_set_format` returns and
installs `format.width = crop.width / hratio` and
`format.height = crop.height / vratio` (integer division, remainder dropped),
leaving the crop unchanged, where `hratio` and `vratio` are the ratios it
computes; each ratio lies in 1..15, and in 1..8 when the crop size in that
dimension is at least 120. -/
theorem set_format_binning_floor (c : Ctx) (which : v4l2_subdev_format_whence)
    (req : v4l2_mbus_framefmt)
    (hw1 : 1 ≤ (__mt9v032_get_pad_crop c which).width)
    (hw2 : (__mt9v032_get_pad_crop c which).width ≤ 752)
    (hh1 : 1 ≤ (__mt9v032_get_pad_crop c which).height)
    (hh2 : (__mt9v032_get_pad_crop c which).height ≤ 480) :
    ∃ (hratio vratio : Nat) (c1 : Ctx) (f : v4l2_mbus_framefmt),
      set_format_ratio (__mt9v032_get_pad_crop c which).width
        MT9V032_WINDOW_WIDTH_MIN req.width = some hratio ∧
      set_format_ratio (__mt9v032_get_pad_crop c which).height
        MT9V032_WINDOW_HEIGHT_MIN req.height = some vratio ∧
      mt9v032_set_format c which req = some (c1, f) ∧
      __mt9v032_get_pad_format c1 which = f ∧
      __mt9v032_get_pad_crop c1 which = __mt9v032_get_pad_crop c which ∧
      f.width = (__mt9v032_get_pad_crop c which).width.toNat / hratio ∧
      f.height = (__mt9v032_get_pad_crop c which).height.toNat / vratio ∧
      1 ≤ hratio ∧ hratio ≤ 15 ∧ 1 ≤ vratio ∧ vratio ≤ 15 ∧
      (120 ≤ (__mt9v032_get_pad_crop c which).width → hratio ≤ 8) ∧
      (120 ≤ (__mt9v032_get_pad_crop c which).height → vratio ≤ 8) := by
  obtain ⟨hr, vr, e1, e2, e3, a1, -, a3, a4, b1, -, b3, b4⟩ :=
    set_format_spec c which req hw1 (by omega) hh1 (by omega)
  exact ⟨hr, vr, _, _, e1, e2, e3, get_format_set_format _ _ _, get_crop_set_format _ _ _,
    rfl, rfl, a1, a3, b1, b3, a4, b4⟩

/-- C4 (witness). The amended statement at the default state and a request of
300x480. -/
theorem set_format_binning_floor_witness :
    ∃ (hratio vratio : Nat) (c1 : Ctx) (f : v4l2_mbus_framefmt),
      set_format_ratio 752 MT9V032_WINDOW_WIDTH_MIN 300 = some hratio ∧
      set_format_ratio 480 MT9V032_WINDOW_HEIGHT_MIN 480 = some vratio ∧
      mt9v032_set_format default_ctx V4L2_SUBDEV_FORMAT_ACTIVE
        { width := 300, height := 480 } = some (c1, f) ∧
      __mt9v032_get_pad_format c1 V4L2_SUBDEV_FORMAT_ACTIVE = f ∧
      __mt9v032_get_pad_crop c1 V4L2_SUBDEV_FORMAT_ACTIVE =
        __mt9v032_get_pad_crop default_ctx V4L2_SUBDEV_FORMAT_ACTIVE ∧
      f.width = 752 / hratio ∧ f.height = 480 / vratio ∧
      1 ≤ hratio ∧ hratio ≤ 15 ∧ 1 ≤ vratio ∧ vratio ≤ 15 ∧
      ((120 : Int) ≤ 752 → hratio ≤ 8) ∧ ((120 : Int) ≤ 480 → vratio ≤ 8) :=
  set_format_binning_floor default_ctx V4L2_SUBDEV_FORMAT_ACTIVE
    { width := 300, height := 480 } (by decide) (by decide) (by decide) (by decide)

/-- C5 (counterexample). The installed width can fall below `max(crop.width / 8, 1)`:
after `mt9v032_set_crop` to `{1, 5, 102, 480}` a request of 0x480 is clamped to
12, rounded to ratio 9, and installs width `102 / 9 = 11`, below
`max(102 / 8, 1) = 12`. -/
theorem set_format_lower_bound_counterexample :
    ∃ c1 f, mt9v032_set_format
        (mt9v032_set_crop default_ctx V4L2_SUBDEV_FORMAT_ACTIVE
          { left := 1, top := 5, width := 102, height := 480 }).1
        V4L2_SUBDEV_FORMAT_ACTIVE { width := 0, height := 480 } = some (c1, f) ∧
      c1.dev.crop.width = 102 ∧ c1.dev.format.width = 11 ∧
      ¬ (max (c1.dev.crop.width.toNat / 8) 1 ≤ c1.dev.format.width) := by
  refine ⟨_, _, rfl, ?_⟩
  decide

/-- C5 (amended). For every selected crop with `1 ≤ width ≤ 752` and
`1 ≤ height ≤ 480` and every requested size, `mt9v032_set_format` returns and
installs a format with `format.width ≥ 1` and `format.height ≥ 1`; moreover
`format.width ≥ max(crop.width / 8, 1)` when `crop.width ≥ 120`, and
`format.height ≥ max(crop.height / 8, 1)` when `crop.height ≥ 120`. -/
theorem set_format_lower_bound (c : Ctx) (which : v4l2_subdev_format_whence)
    (req : v4l2_mbus_framefmt)
    (hw1 : 1 ≤ (__mt9v032_get_pad_crop c which).width)
    (hw2 : (__mt9v032_get_pad_crop c which).width ≤ 752)
    (hh1 : 1 ≤ (__mt9v032_get_pad_crop c which).height)
    (hh2 : (__mt9v032_get_pad_crop c which).height ≤ 480) :
    ∃ (c1 : Ctx) (f : v4l2_mbus_framefmt),
      mt9v032_set_format c which req = some (c1, f) ∧
      __mt9v032_get_pad_format c1 which = f ∧
      1 ≤ f.width ∧ 1 ≤ f.height ∧
      (120 ≤ (__mt9v032_get_pad_crop c which).width →
        max ((__mt9v032_get_pad_crop c which).width.toNat / 8) 1 ≤ f.width) ∧
      (120 ≤ (__mt9v032_get_pad_crop c which).height →
        max ((__mt9v032_get_pad_crop c which).height.toNat / 8) 1 ≤ f.height) := by
  obtain ⟨hr, vr, -, -, e3, a1, a2, -, a4, b1, b2, -, b4⟩ :=
    set_format_spec c which req hw1 (by omega) hh1 (by omega)
  have fw1 : 1 ≤ (__mt9v032_get_pad_crop c which).width.toNat / hr := by
    rw [Nat.le_div_iff_mul_le (by omega)]; omega
  have fh1 : 1 ≤ (__mt9v032_get_pad_crop c which).height.toNat / vr := by
    rw [Nat.le_div_iff_mul_le (by omega)]; omega
  refine ⟨_, _, e3, get_format_set_format _ _ _, fw1, fh1, ?_, ?_⟩
  · intro h
    have := Nat.div_le_div_left (a := (__mt9v032_get_pad_crop c which).width.toNat) (a4 h) a1
    dsimp only
    omega
  · intro h
    have := Nat.div_le_div_left (a := (__mt9v032_get_pad_crop c which).height.toNat) (b4 h) b1
    dsimp only
    omega

/-- C5 (witness). The amended statement at the default state and a request of
0x0, which installs 94x60. -/
theorem set_format_lower_bound_witness :
    ∃ (c1 : Ctx) (f : v4l2_mbus_framefmt),
      mt9v032_set_format default_ctx V4L2_SUBDEV_FORMAT_ACTIVE
        { width := 0, height := 0 } = some (c1, f) ∧
      __mt9v032_get_pad_format c1 V4L2_SUBDEV_FORMAT_ACTIVE = f ∧
      1 ≤ f.width ∧ 1 ≤ f.height ∧
      ((120 : Int) ≤ 752 → max ((752 : Int).toNat / 8) 1 ≤ f.width) ∧
      ((120 : Int) ≤ 480 → max ((480 : Int).toNat / 8) 1 ≤ f.height) :=
  set_format_lower_bound default_ctx V4L2_SUBDEV_FORMAT_ACTIVE
    { width := 0, height := 0 } (by decide) (by decide) (by decide) (by decide)

/-! ## `mt9v032_s_stream` -/

/-- The mode bits set at stream start: master mode, output enable and sequential
readout, together 0x188. -/
theorem stream_mode_bits :
    MT9V032_CHIP_CONTROL_MASTER_MODE ||| MT9V032_CHIP_CONTROL_DOUT_ENABLE |||
      MT9V032_CHIP_CONTROL_SEQUENTIAL = 0x188 := by decide

/-- Setting bits in a 16-bit shadow without clearing any. -/
theorem chip_control_set_value (cc set : Nat) (hcc : cc < 65536) (hset : set < 65536) :
    ((cc &&& (65535 ^^^ 0)) ||| set) % 65536 = cc ||| set := by
  have h1 : (65535 ^^^ 0 : Nat) = 2 ^ 16 - 1 := by decide
  rw [h1, Nat.and_pow_two_sub_one_eq_mod]
  have h2 : cc % 2 ^ 16 = cc := Nat.mod_eq_of_lt (by omega)
  rw [h2]
  apply Nat.mod_eq_of_lt
  have := Nat.or_lt_two_pow (n := 16) (x := cc) (y := set) (by omega) (by omega)
  omega

/-- A successful stream start: with both ratios defined and every write
accepted by the bus, `mt9v032_s_stream` returns 0 after exactly the seven
writes below and records the new CHIP_CONTROL value in the shadow. -/
theorem s_stream_start_ok (bus : Bus) (log : List Access) (dev : mt9v032) (enable : Int)
    (hratio vratio : Nat) (hen : enable ≠ 0) (hbus : ∀ l, 0 ≤ bus l)
    (hh : DIV_ROUND_CLOSEST dev.crop.width dev.format.width = some hratio)
    (hv : DIV_ROUND_CLOSEST dev.crop.height dev.format.height = some vratio)
    (hcc : dev.chip_control < 65536) :
    mt9v032_s_stream bus log dev enable =
      some (0,
        log ++ [Access.write 0x0D (u16 (Int.ofNat (read_mode_word hratio vratio))),
                Access.write 0x01 (u16 dev.crop.left),
                Access.write 0x02 (u16 dev.crop.top),
                Access.write 0x04 (u16 dev.crop.width),
                Access.write 0x03 (u16 dev.crop.height),
                Access.write 0x05 (u16 (kmax 43 (s32 (660 - dev.crop.width)))),
                Access.write 0x07 (dev.chip_control ||| 0x188)],
        { dev with chip_control := dev.chip_control ||| 0x188 }) := by
  have hb : ∀ l, ¬ bus l < 0 := fun l => not_lt.mpr (hbus l)
  have hval := chip_control_set_value dev.chip_control 0x188 hcc (by norm_num)
  have hu : u16 (Int.ofNat (dev.chip_control ||| 0x188)) = dev.chip_control ||| 0x188 := by
    have := Nat.or_lt_two_pow (n := 16) (x := dev.chip_control) (y := 0x188)
      (by omega) (by norm_num)
    unfold u16; simp only [Int.ofNat_eq_coe]; omega
  unfold mt9v032_s_stream
  rw [if_neg hen, hh, hv]
  simp only [Option.bind_eq_bind, Option.some_bind, mt9v032_write, mt9v032_set_chip_control,
    hb, if_false, stream_mode_bits, hval, hu, Option.pure_def, List.append_assoc,
    List.singleton_append, List.cons_append, List.nil_append,
    MT9V032_READ_MODE, MT9V032_COLUMN_START, MT9V032_ROW_START, MT9V032_WINDOW_WIDTH,
    MT9V032_WINDOW_HEIGHT, MT9V032_HORIZONTAL_BLANKING, MT9V032_CHIP_CONTROL]

theorem ite_some_exists {T : Type} {P : Prop} [Decidable P] {a b : Option T} {Q : T → Prop}
    (ha : ∃ t, a = some t ∧ Q t) (hb : ∃ t, b = some t ∧ Q t) :
    ∃ t, (if P then a else b) = some t ∧ Q t := by
  split_ifs <;> assumption

theorem some_ite {T : Type} (P : Prop) [Decidable P] (x y : T) :
    some (if P then x else y) = if P then some x else some y := by
  split_ifs <;> rfl

/-- Whatever the bus answers, a stream start whose ratios are defined begins
with the READ_MODE write. -/
theorem s_stream_first_write (bus : Bus) (log : List Access) (dev : mt9v032) (enable : Int)
    (hratio vratio : Nat) (hen : enable ≠ 0)
    (hh : DIV_ROUND_CLOSEST dev.crop.width dev.format.width = some hratio)
    (hv : DIV_ROUND_CLOSEST dev.crop.height dev.format.height = some vratio) :
    ∃ r, mt9v032_s_stream bus log dev enable = some r ∧
      ∃ rest, r.2.1 =
        log ++ Access.write 0x0D (u16 (Int.ofNat (read_mode_word hratio vratio))) :: rest := by
  unfold mt9v032_s_stream
  rw [if_neg hen, hh, hv]
  simp only [Option.bind_eq_bind, Option.some_bind, mt9v032_write, mt9v032_set_chip_control,
    Option.pure_def, List.append_assoc, some_ite,
    List.singleton_append, List.cons_append, List.nil_append, MT9V032_READ_MODE]
  repeat' apply ite_some_exists
  all_goals exact ⟨_, rfl, _, rfl⟩

/-- The ratio recomputed from a crop size and one of its exact quotients. -/
theorem div_round_closest_exact (cw : Int) (k : Nat) (h1 : 1 ≤ cw) (h2 : cw < 2147483648)
    (hk : 1 ≤ k) (hd : k ∣ cw.toNat) :
    DIV_ROUND_CLOSEST cw (cw.toNat / k) = some k := by
  obtain ⟨q, hq⟩ := hd
  have hq0 : 0 < q := by
    rcases Nat.eq_zero_or_pos q with h | h
    · subst h; omega
    · exact h
  have hdiv : cw.toNat / k = q := by
    rw [hq]; exact Nat.mul_div_cancel_left q (by omega)
  have hu : u32 cw = k * q := by unfold u32; omega
  have hkq : k ≤ k * q := Nat.le_mul_of_pos_right _ hq0
  unfold DIV_ROUND_CLOSEST
  rw [hdiv, if_neg (by omega), hu]
  congr 1
  have hlt : k * q + q / 2 < 4294967296 := by
    have : q ≤ k * q := Nat.le_mul_of_pos_left _ (by omega)
    omega
  rw [Nat.mod_eq_of_lt hlt, Nat.mul_comm, Nat.add_comm, Nat.add_mul_div_left _ _ hq0,
    Nat.div_eq_of_lt (by omega)]
  omega

/-- An even request that is an exact quotient of the crop size by a ratio in
1..8 passes the clamp of `mt9v032_set_format` unchanged and is given that ratio. -/
theorem set_format_dim_exact (cw : Int) (lo : Int) (k : Nat) (hlo : lo = 1)
    (h1 : 1 ≤ cw) (h2 : cw < 2147483648) (hk1 : 1 ≤ k) (hk8 : k ≤ 8)
    (hd : k ∣ cw.toNat) (he : (cw.toNat / k) % 2 = 0) :
    set_format_ratio cw lo (cw.toNat / k) = some k ∧
    udiv cw k = some (cw.toNat / k) := by
  subst hlo
  have ht : Int.tdiv cw 8 = cw / 8 := Int.tdiv_eq_ediv (by omega) (by norm_num)
  have hu : u32 cw = cw.toNat := by unfold u32; omega
  have hq1 : 1 ≤ cw.toNat / k := by
    rw [Nat.le_div_iff_mul_le (by omega)]
    have := Nat.le_of_dvd (by omega) hd
    omega
  have hq2 : cw.toNat / k ≤ cw.toNat := Nat.div_le_self _ _
  have hq3 : cw.toNat / 8 ≤ cw.toNat / k := Nat.div_le_div_left hk8 hk1
  have hc : set_format_clamped cw 1 (cw.toNat / k) = cw.toNat / k := by
    unfold set_format_clamped clamp_t_uint kmax
    rw [ht, hu]
    have ha : u32 (Int.ofNat (ALIGN_u32 (cw.toNat / k) 2)) = cw.toNat / k := by
      rw [ALIGN_u32_two]; unfold u32; simp only [Int.ofNat_eq_coe]; omega
    rw [ha]
    have hk : u32 (if cw / 8 > 1 then cw / 8 else 1) = max (cw.toNat / 8) 1 := by
      unfold u32; split_ifs <;> omega
    rw [hk]
    dsimp only
    split_ifs <;> omega
  refine ⟨?_, ?_⟩
  · unfold set_format_ratio
    rw [hc]
    exact div_round_closest_exact cw k h1 h2 hk1 hd
  · unfold udiv
    rw [if_neg (by omega), hu]

/-- C6. Exact-divisor formats are honoured: for every selected crop with
`1 ≤ width ≤ 752`, `1 ≤ height ≤ 480` and every `kh`, `kv` in 1..8 dividing the
crop width and height with even quotients, `mt9v032_set_format` with the
request `(width / kh, height / kv)` returns and installs exactly that size,
leaves the crop alone, and the ratios that `mt9v032_s_stream` recomputes from
the stored crop and format are `kh` and `kv`, so that (active state) the first
write of a stream start is READ_MODE with the word built from `kh` and `kv`.
For the crop 752x480 and the request 376x240 the format is 376x240 and
READ_MODE is written with 5. -/
theorem set_format_exact_divisor (c : Ctx) (which : v4l2_subdev_format_whence)
    (kh kv : Nat)
    (hw1 : 1 ≤ (__mt9v032_get_pad_crop c which).width)
    (hw2 : (__mt9v032_get_pad_crop c which).width ≤ 752)
    (hh1 : 1 ≤ (__mt9v032_get_pad_crop c which).height)
    (hh2 : (__mt9v032_get_pad_crop c which).height ≤ 480)
    (hkh1 : 1 ≤ kh) (hkh8 : kh ≤ 8) (hkv1 : 1 ≤ kv) (hkv8 : kv ≤ 8)
    (hdh : kh ∣ (__mt9v032_get_pad_crop c which).width.toNat)
    (hdv : kv ∣ (__mt9v032_get_pad_crop c which).height.toNat)
    (heh : ((__mt9v032_get_pad_crop c which).width.toNat / kh) % 2 = 0)
    (hev : ((__mt9v032_get_pad_crop c which).height.toNat / kv) % 2 = 0) :
    (∃ c1 : Ctx,
      mt9v032_set_format c which
          { width := (__mt9v032_get_pad_crop c which).width.toNat / kh,
            height := (__mt9v032_get_pad_crop c which).height.toNat / kv } =
        some (c1, { width := (__mt9v032_get_pad_crop c which).width.toNat / kh,
                    height := (__mt9v032_get_pad_crop c which).height.toNat / kv }) ∧
      __mt9v032_get_pad_format c1 which =
        { width := (__mt9v032_get_pad_crop c which).width.toNat / kh,
          height := (__mt9v032_get_pad_crop c which).height.toNat / kv } ∧
      __mt9v032_get_pad_crop c1 which = __mt9v032_get_pad_crop c which ∧
      DIV_ROUND_CLOSEST (__mt9v032_get_pad_crop c1 which).width
        (__mt9v032_get_pad_format c1 which).width = some kh ∧
      DIV_ROUND_CLOSEST (__mt9v032_get_pad_crop c1 which).height
        (__mt9v032_get_pad_format c1 which).height = some kv ∧
      (which = V4L2_SUBDEV_FORMAT_ACTIVE →
        ∀ (bus : Bus) (log : List Access) (enable : Int), enable ≠ 0 →
          ∃ r, mt9v032_s_stream bus log c1.dev enable = some r ∧
            ∃ rest, r.2.1 =
              log ++ Access.write 0x0D (u16 (Int.ofNat (read_mode_word kh kv))) :: rest)) ∧
    (∃ c2 : Ctx,
      mt9v032_set_format
          (mt9v032_set_crop default_ctx V4L2_SUBDEV_FORMAT_ACTIVE
            { left := 1, top := 5, width := 752, height := 480 }).1
          V4L2_SUBDEV_FORMAT_ACTIVE { width := 376, height := 240 } =
        some (c2, { width := 376, height := 240 }) ∧
      c2.dev.format = { width := 376, height := 240 } ∧
      ∀ (bus : Bus) (log : List Access) (enable : Int), enable ≠ 0 →
        ∃ r, mt9v032_s_stream bus log c2.dev enable = some r ∧
          ∃ rest, r.2.1 = log ++ Access.write 0x0D 5 :: rest) := by
  constructor
  · obtain ⟨e1, d1⟩ := set_format_dim_exact _ MT9V032_WINDOW_WIDTH_MIN kh rfl hw1 (by omega)
      hkh1 hkh8 hdh heh
    obtain ⟨e2, d2⟩ := set_format_dim_exact _ MT9V032_WINDOW_HEIGHT_MIN kv rfl hh1 (by omega)
      hkv1 hkv8 hdv hev
    have hr1 := div_round_closest_exact _ kh hw1 (by omega) hkh1 hdh
    have hr2 := div_round_closest_exact _ kv hh1 (by omega) hkv1 hdv
    refine ⟨_, set_format_of_ratios c which _ kh kv _ _ e1 e2 d1 d2, ?_, ?_, ?_, ?_, ?_⟩
    · exact get_format_set_format _ _ _
    · exact get_crop_set_format _ _ _
    · rw [get_crop_set_format, get_format_set_format]; exact hr1
    · rw [get_crop_set_format, get_format_set_format]; exact hr2
    · intro hwhich bus log enable hen
      subst hwhich
      exact s_stream_first_write bus log _ enable kh kv hen hr1 hr2
  · refine ⟨_, rfl, rfl, ?_⟩
    intro bus log enable hen
    exact s_stream_first_write bus log _ enable 2 2 hen rfl rfl

/-- C6 (witness). The theorem at the default state with `kh = kv = 2`: the
request 376x240 is installed as is and the recomputed ratios are 2 and 2. -/
theorem set_format_exact_divisor_witness :
    ∃ c1 : Ctx,
      mt9v032_set_format default_ctx V4L2_SUBDEV_FORMAT_ACTIVE
          { width := 376, height := 240 } =
        some (c1, { width := 376, height := 240 }) ∧
      __mt9v032_get_pad_format c1 V4L2_SUBDEV_FORMAT_ACTIVE =
        { width := 376, height := 240 } ∧
      __mt9v032_get_pad_crop c1 V4L2_SUBDEV_FORMAT_ACTIVE =
        __mt9v032_get_pad_crop default_ctx V4L2_SUBDEV_FORMAT_ACTIVE ∧
      DIV_ROUND_CLOSEST (__mt9v032_get_pad_crop c1 V4L2_SUBDEV_FORMAT_ACTIVE).width
        (__mt9v032_get_pad_format c1 V4L2_SUBDEV_FORMAT_ACTIVE).width = some 2 ∧
      DIV_ROUND_CLOSEST (__mt9v032_get_pad_crop c1 V4L2_SUBDEV_FORMAT_ACTIVE).height
        (__mt9v032_get_pad_format c1 V4L2_SUBDEV_FORMAT_ACTIVE).height = some 2 ∧
      (V4L2_SUBDEV_FORMAT_ACTIVE = V4L2_SUBDEV_FORMAT_ACTIVE →
        ∀ (bus : Bus) (log : List Access) (enable : Int), enable ≠ 0 →
          ∃ r, mt9v032_s_stream bus log c1.dev enable = some r ∧
            ∃ rest, r.2.1 =
              log ++ Access.write 0x0D (u16 (Int.ofNat (read_mode_word 2 2))) :: rest) :=
  (set_format_exact_divisor default_ctx V4L2_SUBDEV_FORMAT_ACTIVE 2 2
    (by decide) (by decide) (by decide) (by decide) (by decide) (by decide) (by decide)
    (by decide) (by decide) (by decide) (by decide) (by decide)).1

/-- C8. Stream-start register trace: for every driver state whose crop is
within the register limits and whose format sizes are not zero, when every
bus write succeeds `mt9v032_s_stream` with a non-zero `enable` returns 0 after
exactly seven writes, in this order: READ_MODE (0x0D) with the binning word,
COLUMN_START (0x01) = crop.left, ROW_START (0x02) = crop.top, WINDOW_WIDTH
(0x04) = crop.width, WINDOW_HEIGHT (0x03) = crop.height, HORIZONTAL_BLANKING
(0x05) = max(43, 660 - crop.width) and CHIP_CONTROL (0x07) = shadow | 0x188,
which becomes the new shadow.  For the default state the values are 0, 1, 5,
752, 480, 43 and 0x188. -/
theorem s_stream_start_trace (bus : Bus) (log : List Access) (dev : mt9v032) (enable : Int)
    (hen : enable ≠ 0) (hbus : ∀ l, 0 ≤ bus l)
    (hl1 : 1 ≤ dev.crop.left) (hl2 : dev.crop.left ≤ 752)
    (ht1 : 4 ≤ dev.crop.top) (ht2 : dev.crop.top ≤ 482)
    (hw1 : 1 ≤ dev.crop.width) (hw2 : dev.crop.width ≤ 752)
    (hh1 : 1 ≤ dev.crop.height) (hh2 : dev.crop.height ≤ 480)
    (hfw : dev.format.width ≠ 0) (hfh : dev.format.height ≠ 0)
    (hcc : IsU16 dev.chip_control) :
    (∃ hratio vratio : Nat,
      DIV_ROUND_CLOSEST dev.crop.width dev.format.width = some hratio ∧
      DIV_ROUND_CLOSEST dev.crop.height dev.format.height = some vratio ∧
      mt9v032_s_stream bus log dev enable =
        some (0,
          log ++ [Access.write 0x0D (u16 (Int.ofNat (read_mode_word hratio vratio))),
                  Access.write 0x01 dev.crop.left.toNat,
                  Access.write 0x02 dev.crop.top.toNat,
                  Access.write 0x04 dev.crop.width.toNat,
                  Access.write 0x03 dev.crop.height.toNat,
                  Access.write 0x05 (max 43 (660 - dev.crop.width)).toNat,
                  Access.write 0x07 (dev.chip_control ||| 0x188)],
          { dev with chip_control := dev.chip_control ||| 0x188 })) ∧
    mt9v032_s_stream bus log mt9v032_probe enable =
      some (0,
        log ++ [Access.write 0x0D 0, Access.write 0x01 1, Access.write 0x02 5,
                Access.write 0x04 752, Access.write 0x03 480, Access.write 0x05 43,
                Access.write 0x07 0x188],
        { mt9v032_probe with chip_control := 0x188 }) := by
  constructor
  · have e1 : DIV_ROUND_CLOSEST dev.crop.width dev.format.width =
        some (((u32 dev.crop.width + dev.format.width / 2) % 4294967296) /
          dev.format.width) := by
      unfold DIV_ROUND_CLOSEST; rw [if_neg hfw]
    have e2 : DIV_ROUND_CLOSEST dev.crop.height dev.format.height =
        some (((u32 dev.crop.height + dev.format.height / 2) % 4294967296) /
          dev.format.height) := by
      unfold DIV_ROUND_CLOSEST; rw [if_neg hfh]
    refine ⟨_, _, e1, e2, ?_⟩
    rw [s_stream_start_ok bus log dev enable _ _ hen hbus e1 e2 hcc]
    have u1 : u16 dev.crop.left = dev.crop.left.toNat := by unfold u16; omega
    have u2 : u16 dev.crop.top = dev.crop.top.toNat := by unfold u16; omega
    have u3 : u16 dev.crop.width = dev.crop.width.toNat := by unfold u16; omega
    have u4 : u16 dev.crop.height = dev.crop.height.toNat := by unfold u16; omega
    have u5 : u16 (kmax 43 (s32 (660 - dev.crop.width))) =
        (max 43 (660 - dev.crop.width)).toNat := by
      unfold u16 kmax s32; split_ifs <;> omega
    rw [u1, u2, u3, u4, u5]
  · exact s_stream_start_ok bus log mt9v032_probe enable 1 1 hen hbus rfl rfl (by decide)

/-- C8 (witness). The theorem at the default state, an empty bus history and a
bus that accepts every write: both ratios are defined and the seven writes
carry 1, 5, 752, 480, 43 and 0x188 after the binning word. -/
theorem s_stream_start_trace_witness :
    ∃ hratio vratio : Nat,
      DIV_ROUND_CLOSEST mt9v032_probe.crop.width mt9v032_probe.format.width = some hratio ∧
      DIV_ROUND_CLOSEST mt9v032_probe.crop.height mt9v032_probe.format.height = some vratio ∧
      mt9v032_s_stream (fun _ => 0) [] mt9v032_probe 1 =
        some (0,
          [] ++ [Access.write 0x0D (u16 (Int.ofNat (read_mode_word hratio vratio))),
                 Access.write 0x01 1, Access.write 0x02 5, Access.write 0x04 752,
                 Access.write 0x03 480, Access.write 0x05 43, Access.write 0x07 0x188],
          { mt9v032_probe with chip_control := 0x188 }) :=
  (s_stream_start_trace (fun _ => 0) [] mt9v032_probe 1 (by decide) (fun _ => le_refl _)
    (by decide) (by decide) (by decide) (by decide) (by decide) (by decide) (by decide)
    (by decide) (by decide) (by decide) (by decide)).1

/-- C9. READ_MODE field assignment is swapped in the code: from the default
state (crop 752x480) the format 376x480 gives `hratio = 2` and `vratio = 1`, and
`mt9v032_s_stream` writes READ_MODE with 1, so the row-bin field (bits 0-1)
holds `hratio - 1 = 1` and the column-bin field (bits 2-3) holds
`vratio - 1 = 0`; the field layout asks for the word 4. -/
theorem read_mode_fields_swapped :
    ∃ c1 f r,
      mt9v032_set_format default_ctx V4L2_SUBDEV_FORMAT_ACTIVE
        { width := 376, height := 480 } = some (c1, f) ∧
      DIV_ROUND_CLOSEST c1.dev.crop.width c1.dev.format.width = some 2 ∧
      DIV_ROUND_CLOSEST c1.dev.crop.height c1.dev.format.height = some 1 ∧
      mt9v032_s_stream (fun _ => 0) [] c1.dev 1 = some r ∧
      r.2.1.head? = some (Access.write 0x0D 1) ∧
      (1 &&& MT9V032_READ_MODE_ROW_BIN_MASK) >>> MT9V032_READ_MODE_ROW_BIN_SHIFT = 2 - 1 ∧
      (1 &&& MT9V032_READ_MODE_COLUMN_BIN_MASK) >>> MT9V032_READ_MODE_COLUMN_BIN_SHIFT =
        1 - 1 := by
  refine ⟨_, _, _, rfl, ?_, ?_, rfl, ?_, ?_, ?_⟩ <;> decide

/-- C10. READ_MODE fields overflow their two bits in the code: from the
default state, `mt9v032_set_crop` to `{1, 5, 752, 480}` followed by
`mt9v032_set_format` with 94x60 gives ratios 8 and 8, and `mt9v032_s_stream`
writes READ_MODE with `7 | 7 << 2 = 31`: the row-bin value 7 exceeds 3 and
reaches bit 2 of the column-bin field, and bit 4 (row flip) is set. -/
theorem read_mode_fields_overflow :
    ∃ c1 f r,
      mt9v032_set_format
        (mt9v032_set_crop default_ctx V4L2_SUBDEV_FORMAT_ACTIVE
          { left := 1, top := 5, width := 752, height := 480 }).1
        V4L2_SUBDEV_FORMAT_ACTIVE { width := 94, height := 60 } = some (c1, f) ∧
      DIV_ROUND_CLOSEST c1.dev.crop.width c1.dev.format.width = some 8 ∧
      DIV_ROUND_CLOSEST c1.dev.crop.height c1.dev.format.height = some 8 ∧
      mt9v032_s_stream (fun _ => 0) [] c1.dev 1 = some r ∧
      r.2.1.head? = some (Access.write 0x0D 31) ∧
      ¬ (8 - 1 ≤ 3) ∧
      31 &&& MT9V032_READ_MODE_ROW_FLIP = MT9V032_READ_MODE_ROW_FLIP ∧
      ¬ (31 &&& (MT9V032_READ_MODE_ROW_BIN_MASK ||| MT9V032_READ_MODE_COLUMN_BIN_MASK) = 31) := by
  refine ⟨_, _, _, rfl, ?_, ?_, rfl, ?_, ?_, ?_, ?_⟩ <;> decide

/-! ## Stream stop -/

/-- The value written by a stream stop: the shadow with the three mode bits
cleared. -/
theorem chip_control_clear_value (cc : Nat) :
    ((cc &&& (65535 ^^^ 0x188)) ||| 0) % 65536 = cc &&& 0xFE77 := by
  have h1 : (65535 ^^^ 0x188 : Nat) = 0xFE77 := by decide
  rw [h1, Nat.or_zero]
  apply Nat.mod_eq_of_lt
  have := Nat.and_le_right (n := cc) (m := 0xFE77)
  omega

/-- C13. Stream stop touches only CHIP_CONTROL: `mt9v032_s_stream` with
`enable = 0` issues exactly one write, to CHIP_CONTROL (0x07), of the shadow
with bits 0x188 cleared (`shadow & 0xFE77`, every other bit kept); when the
write succeeds it returns 0 and the shadow becomes that value, when it fails
the error is returned and the shadow is unchanged; nothing else is written
and crop and format are unchanged in both cases. -/
theorem s_stream_stop_writes_chip_control (bus : Bus) (log : List Access) (dev : mt9v032) :
    mt9v032_s_stream bus log dev 0 =
      some (if bus (log ++ [Access.write 0x07 (dev.chip_control &&& 0xFE77)]) < 0 then
          (bus (log ++ [Access.write 0x07 (dev.chip_control &&& 0xFE77)]),
            log ++ [Access.write 0x07 (dev.chip_control &&& 0xFE77)], dev)
        else
          (0, log ++ [Access.write 0x07 (dev.chip_control &&& 0xFE77)],
            { dev with chip_control := dev.chip_control &&& 0xFE77 })) ∧
    (0xFE77 : Nat) = 0xFFFF ^^^ 0x188 := by
  refine ⟨?_, by decide⟩
  have hv := chip_control_clear_value dev.chip_control
  have hu : u16 (Int.ofNat (dev.chip_control &&& 0xFE77)) = dev.chip_control &&& 0xFE77 := by
    have := Nat.and_le_right (n := dev.chip_control) (m := 0xFE77)
    unfold u16; simp only [Int.ofNat_eq_coe]; omega
  unfold mt9v032_s_stream
  rw [if_pos rfl]
  simp only [mt9v032_set_chip_control, mt9v032_write, stream_mode_bits, hv, hu,
    MT9V032_CHIP_CONTROL]

/-! ## Test pattern -/

theorem test_pattern_data_lt (val : Int) : test_pattern_data val < 65536 := by
  unfold test_pattern_data
  split_ifs <;> first | decide | exact Nat.mod_lt _ (by norm_num)

/-- For a value above 3 and below 1024 the test-pattern word is the value plus
the use-data, enable and flip bits. -/
theorem test_pattern_data_const (n : Nat) (h3 : 3 < n) (hn : n ≤ 1023) :
    test_pattern_data (Int.ofNat n) = n + 25600 := by
  have hu : u32 (Int.ofNat n) = n := by
    unfold u32; simp only [Int.ofNat_eq_coe]; omega
  have hor : n ||| 25600 = n + 25600 := by
    have h := Nat.mul_add_lt_is_or (i := 10) (b := n) (by omega) 25
    have h2 : (2 ^ 10 * 25 : Nat) = 25600 := by norm_num
    rw [h2, Nat.or_comm] at h
    omega
  unfold test_pattern_data
  rw [if_neg (by simp only [Int.ofNat_eq_coe]; omega),
    if_neg (by simp only [Int.ofNat_eq_coe]; omega),
    if_neg (by simp only [Int.ofNat_eq_coe]; omega),
    if_neg (by simp only [Int.ofNat_eq_coe]; omega), hu]
  have hs : (n <<< MT9V032_TEST_PATTERN_DATA_SHIFT) % 4294967296 = n := by
    unfold MT9V032_TEST_PATTERN_DATA_SHIFT
    rw [Nat.shiftLeft_zero]
    omega
  have hc : MT9V032_TEST_PATTERN_USE_DATA ||| (MT9V032_TEST_PATTERN_ENABLE |||
      MT9V032_TEST_PATTERN_FLIP) = 25600 := by decide
  rw [hs, Nat.or_assoc, Nat.or_assoc, hc, hor]
  omega

/-- C20. Test-pattern encoding: for every `n` in 0..1023, applying the
test-pattern control with value `n` issues exactly one write, to TEST_PATTERN
(0x7F); its value is 0 for `n = 0`, `(n << 11) | (1 << 13)` for `n` equal to 1, 2
or 3 (0x3800 for 3), and for `n > 3` a word whose low 10 bits equal `n`, whose
bits 10 (use-data), 13 (enable) and 14 (flip) are set and whose bits 11, 12
(grey select) and 15 are clear.  The driver state is unchanged and the bus
result is returned. -/
theorem test_pattern_encoding (bus : Bus) (log : List Access) (dev : mt9v032) (n : Nat)
    (hn : n ≤ 1023) :
    mt9v032_s_ctrl bus log dev V4L2_CID_TEST_PATTERN (Int.ofNat n) =
      (bus (log ++ [Access.write 0x7F (test_pattern_data (Int.ofNat n))]),
        log ++ [Access.write 0x7F (test_pattern_data (Int.ofNat n))], dev) ∧
    (n = 0 → test_pattern_data (Int.ofNat n) = 0) ∧
    (n = 1 ∨ n = 2 ∨ n = 3 → test_pattern_data (Int.ofNat n) = (n <<< 11) ||| (1 <<< 13)) ∧
    test_pattern_data 3 = 0x3800 ∧
    (3 < n →
      test_pattern_data (Int.ofNat n) % 1024 = n ∧
      (test_pattern_data (Int.ofNat n)).testBit 10 = true ∧
      (test_pattern_data (Int.ofNat n)).testBit 13 = true ∧
      (test_pattern_data (Int.ofNat n)).testBit 14 = true ∧
      (test_pattern_data (Int.ofNat n)).testBit 11 = false ∧
      (test_pattern_data (Int.ofNat n)).testBit 12 = false ∧
      (test_pattern_data (Int.ofNat n)).testBit 15 = false) := by
  refine ⟨?_, ?_, ?_, by decide, ?_⟩
  · have hlt := test_pattern_data_lt (Int.ofNat n)
    have hu : u16 (Int.ofNat (test_pattern_data (Int.ofNat n))) =
        test_pattern_data (Int.ofNat n) := by
      unfold u16; simp only [Int.ofNat_eq_coe] at *; omega
    simp only [mt9v032_s_ctrl, mt9v032_write, hu, MT9V032_TEST_PATTERN]
  · intro h; subst h; decide
  · rintro (h | h | h) <;> subst h <;> decide
  · intro h3
    rw [test_pattern_data_const n h3 hn]
    simp only [Nat.testBit_to_div_mod, decide_eq_true_eq, decide_eq_false_iff_not]
    refine ⟨?_, ?_, ?_, ?_, ?_, ?_, ?_⟩ <;> omega

/-- C20 (witness). The theorem at `n = 1023` on the default state. -/
theorem test_pattern_encoding_witness :
    mt9v032_s_ctrl (fun _ => 0) [] mt9v032_probe V4L2_CID_TEST_PATTERN (Int.ofNat 1023) =
      (0, [Access.write 0x7F 26623], mt9v032_probe) ∧
    test_pattern_data (Int.ofNat 1023) % 1024 = 1023 :=
  ⟨(test_pattern_encoding (fun _ => 0) [] mt9v032_probe 1023 (by decide)).1,
   ((test_pattern_encoding (fun _ => 0) [] mt9v032_probe 1023 (by decide)).2.2.2.2
      (by decide)).1⟩

/-! ## Stream start: power and failures -/

/-- C11 (counterexample). A stream start with power count 0 is not refused: on
the default state (power count 0) and a bus that accepts every write,
`mt9v032_s_stream` with `enable = 1` returns 0, issues seven writes and sets
bits 0x188 in the chip-control shadow. -/
theorem s_stream_unpowered_counterexample :
    mt9v032_probe.power_count = 0 ∧
    ∃ r, mt9v032_s_stream (fun _ => 0) [] mt9v032_probe 1 = some r ∧
      r.1 = 0 ∧ r.2.1.length = 7 ∧
      r.2.1.getLast? = some (Access.write 0x07 0x188) ∧
      r.2.2.chip_control = 0x188 ∧ r.2.2.chip_control ≠ mt9v032_probe.chip_control := by
  refine ⟨rfl, _, rfl, ?_⟩
  decide

/-- C11 (amended). `mt9v032_s_stream` does not consult the power count: with
power count 0, a non-zero `enable` and non-zero format sizes it performs the
stream start.  Whatever the bus answers the READ_MODE write is issued; when
every write succeeds the call returns 0 after the seven writes of a stream
start and sets bits 0x188 in the chip-control shadow, leaving crop, format and
power count unchanged. -/
theorem s_stream_ignores_power_count (bus : Bus) (log : List Access) (dev : mt9v032)
    (enable : Int) (hen : enable ≠ 0) (hpc : dev.power_count = 0)
    (hfw : dev.format.width ≠ 0) (hfh : dev.format.height ≠ 0)
    (hcc : IsU16 dev.chip_control) :
    ∃ hratio vratio : Nat,
      DIV_ROUND_CLOSEST dev.crop.width dev.format.width = some hratio ∧
      DIV_ROUND_CLOSEST dev.crop.height dev.format.height = some vratio ∧
      (∃ r, mt9v032_s_stream bus log dev enable = some r ∧
        ∃ rest, r.2.1 =
          log ++ Access.write 0x0D (u16 (Int.ofNat (read_mode_word hratio vratio))) :: rest) ∧
      ((∀ l, 0 ≤ bus l) →
        mt9v032_s_stream bus log dev enable =
          some (0, log ++ stream_start_writes dev hratio vratio,
            { dev with chip_control := dev.chip_control ||| 0x188, power_count := 0 })) := by
  have e1 : DIV_ROUND_CLOSEST dev.crop.width dev.format.width =
      some (((u32 dev.crop.width + dev.format.width / 2) % 4294967296) /
        dev.format.width) := by
    unfold DIV_ROUND_CLOSEST; rw [if_neg hfw]
  have e2 : DIV_ROUND_CLOSEST dev.crop.height dev.format.height =
      some (((u32 dev.crop.height + dev.format.height / 2) % 4294967296) /
        dev.format.height) := by
    unfold DIV_ROUND_CLOSEST; rw [if_neg hfh]
  refine ⟨_, _, e1, e2, s_stream_first_write bus log dev enable _ _ hen e1 e2, ?_⟩
  intro hbus
  rw [s_stream_start_ok bus log dev enable _ _ hen hbus e1 e2 hcc, ← hpc]
  rfl

/-- C11 (witness). The amended statement at the default state, whose power count
is 0. -/
theorem s_stream_ignores_power_count_witness :
    ∃ hratio vratio : Nat,
      DIV_ROUND_CLOSEST mt9v032_probe.crop.width mt9v032_probe.format.width = some hratio ∧
      DIV_ROUND_CLOSEST mt9v032_probe.crop.height mt9v032_probe.format.height = some vratio ∧
      (∃ r, mt9v032_s_stream (fun _ => 0) [] mt9v032_probe 1 = some r ∧
        ∃ rest, r.2.1 =
          [] ++ Access.write 0x0D (u16 (Int.ofNat (read_mode_word hratio vratio))) :: rest) ∧
      ((∀ l : List Access, (0 : Int) ≤ (fun _ => 0) l) →
        mt9v032_s_stream (fun _ => 0) [] mt9v032_probe 1 =
          some (0, [] ++ stream_start_writes mt9v032_probe hratio vratio,
            { mt9v032_probe with chip_control := 0 ||| 0x188, power_count := 0 })) :=
  s_stream_ignores_power_count (fun _ => 0) [] mt9v032_probe 1 (by decide) rfl
    (by decide) (by decide) (by decide)

/-- C12. Stream-start failure is atomic on the state machine: for a stream
start whose ratios are defined, if the first `i` of the seven register writes
succeed and write number `i + 1` fails, `mt9v032_s_stream` returns that bus
error, has issued exactly those `i + 1` writes, and leaves the driver state
(chip-control shadow, crop and format) unchanged; when the failed write is a
geometry write (`i < 6`) no write to CHIP_CONTROL (0x07) has been issued. -/
theorem s_stream_start_failure (bus : Bus) (log : List Access) (dev : mt9v032)
    (enable : Int) (hratio vratio : Nat) (i : Nat) (hen : enable ≠ 0)
    (hh : DIV_ROUND_CLOSEST dev.crop.width dev.format.width = some hratio)
    (hv : DIV_ROUND_CLOSEST dev.crop.height dev.format.height = some vratio)
    (hcc : IsU16 dev.chip_control) (hi : i < 7)
    (hok : ∀ j, j < i →
      0 ≤ bus (log ++ (stream_start_writes dev hratio vratio).take (j + 1)))
    (hfail : bus (log ++ (stream_start_writes dev hratio vratio).take (i + 1)) < 0) :
    mt9v032_s_stream bus log dev enable =
      some (bus (log ++ (stream_start_writes dev hratio vratio).take (i + 1)),
        log ++ (stream_start_writes dev hratio vratio).take (i + 1), dev) ∧
    (i < 6 → ∀ v, Access.write 0x07 v ∉ (stream_start_writes dev hratio vratio).take (i + 1)) := by
  have hval := chip_control_set_value dev.chip_control 0x188 hcc (by norm_num)
  have hu : u16 (Int.ofNat (dev.chip_control ||| 0x188)) = dev.chip_control ||| 0x188 := by
    have := Nat.or_lt_two_pow (n := 16) (x := dev.chip_control) (y := 0x188)
      (by unfold IsU16 at hcc; omega) (by norm_num)
    unfold u16; simp only [Int.ofNat_eq_coe]; omega
  have n0 : 0 < i → ¬ bus (log ++ (stream_start_writes dev hratio vratio).take 1) < 0 :=
    fun h => not_lt.mpr (hok 0 h)
  have n1 : 1 < i → ¬ bus (log ++ (stream_start_writes dev hratio vratio).take 2) < 0 :=
    fun h => not_lt.mpr (hok 1 h)
  have n2 : 2 < i → ¬ bus (log ++ (stream_start_writes dev hratio vratio).take 3) < 0 :=
    fun h => not_lt.mpr (hok 2 h)
  have n3 : 3 < i → ¬ bus (log ++ (stream_start_writes dev hratio vratio).take 4) < 0 :=
    fun h => not_lt.mpr (hok 3 h)
  have n4 : 4 < i → ¬ bus (log ++ (stream_start_writes dev hratio vratio).take 5) < 0 :=
    fun h => not_lt.mpr (hok 4 h)
  have n5 : 5 < i → ¬ bus (log ++ (stream_start_writes dev hratio vratio).take 6) < 0 :=
    fun h => not_lt.mpr (hok 5 h)
  clear hok
  unfold mt9v032_s_stream
  rw [if_neg hen, hh, hv]
  simp only [stream_start_writes, MT9V032_READ_MODE, MT9V032_COLUMN_START, MT9V032_ROW_START,
    MT9V032_WINDOW_WIDTH, MT9V032_WINDOW_HEIGHT, MT9V032_HORIZONTAL_BLANKING,
    MT9V032_CHIP_CONTROL, Int.ofNat_eq_coe] at *
  interval_cases i <;>
    simp only [List.take, Nat.reduceAdd, Nat.lt_irrefl, Nat.reduceLT, forall_const,
      List.append_assoc, List.singleton_append, List.cons_append, List.nil_append,
      IsEmpty.forall_iff] at n0 n1 n2 n3 n4 n5 hfail ⊢ <;>
    simp only [Option.bind_eq_bind, Option.some_bind, mt9v032_write, mt9v032_set_chip_control,
      Option.pure_def, List.append_assoc, stream_mode_bits, hval, hu,
      List.singleton_append, List.cons_append, List.nil_append,
      MT9V032_READ_MODE, MT9V032_COLUMN_START, MT9V032_ROW_START, MT9V032_WINDOW_WIDTH,
      MT9V032_WINDOW_HEIGHT, MT9V032_HORIZONTAL_BLANKING, MT9V032_CHIP_CONTROL,
      hfail, n0, n1, n2, n3, n4, n5, if_true, if_false, true_and, Int.ofNat_eq_coe] <;>
    simp

/-- C12 (witness). The theorem on the default state with a bus that rejects the
third write (ROW_START): the call returns that error after three writes and
the state is unchanged. -/
theorem s_stream_start_failure_witness :
    mt9v032_s_stream (fun l => if l.length = 3 then -5 else 0) [] mt9v032_probe 1 =
      some (-5, [Access.write 0x0D 0, Access.write 0x01 1, Access.write 0x02 5],
        mt9v032_probe) :=
  (s_stream_start_failure (fun l => if l.length = 3 then -5 else 0) [] mt9v032_probe 1 1 1 2
    (by decide) rfl rfl (by decide) (by decide)
    (by intro j hj; interval_cases j <;> decide) (by decide)).1


/-! ## Lifecycle -/

/-- A control change never touches the power count, the crop or the format. -/
theorem s_ctrl_frame (bus : Bus) (log : List Access) (dev : mt9v032) (id : v4l2_cid)
    (val : Int) :
    (mt9v032_s_ctrl bus log dev id val).2.2.power_count = dev.power_count ∧
    (mt9v032_s_ctrl bus log dev id val).2.2.crop = dev.crop ∧
    (mt9v032_s_ctrl bus log dev id val).2.2.format = dev.format ∧
    (mt9v032_s_ctrl bus log dev id val).2.2.chip_control = dev.chip_control := by
  cases id <;>
    simp only [mt9v032_s_ctrl, mt9v032_update_aec_agc, mt9v032_write] <;>
    first
    | exact ⟨rfl, rfl, rfl, rfl⟩
    | exact ⟨trivial, trivial, trivial, trivial⟩
    | (split_ifs <;> exact ⟨rfl, rfl, rfl, rfl⟩)

/-- The control replay never touches the power count, the crop, the format or the
chip-control shadow. -/
theorem handler_setup_frame (bus : Bus) (ctrls : List (v4l2_cid × Int)) :
    ∀ (log : List Access) (dev : mt9v032),
      (v4l2_ctrl_handler_setup bus log dev ctrls).2.2.power_count = dev.power_count ∧
      (v4l2_ctrl_handler_setup bus log dev ctrls).2.2.crop = dev.crop ∧
      (v4l2_ctrl_handler_setup bus log dev ctrls).2.2.format = dev.format ∧
      (v4l2_ctrl_handler_setup bus log dev ctrls).2.2.chip_control = dev.chip_control := by
  induction ctrls with
  | nil => intro log dev; exact ⟨rfl, rfl, rfl, rfl⟩
  | cons c rest ih =>
    intro log dev
    obtain ⟨id, val⟩ := c
    have hf := s_ctrl_frame bus log dev id val
    unfold v4l2_ctrl_handler_setup
    generalize mt9v032_s_ctrl bus log dev id val = r at hf
    obtain ⟨ret, log1, dev1⟩ := r
    dsimp only at hf ⊢
    split_ifs
    · exact hf
    · have := ih log1 dev1
      rw [hf.1, hf.2.1, hf.2.2.1, hf.2.2.2] at this
      exact this

/-- The power-on sequence leaves the driver instance proper unchanged. -/
theorem power_on_dev (bus : Bus) (log : List Access) (d : Driver) :
    (mt9v032_power_on bus log d).2.2.dev = d.dev := by
  unfold mt9v032_power_on
  simp only [mt9v032_read, mt9v032_write]
  split_ifs <;> rfl

/-- No path through `__mt9v032_set_power` changes the power count, the crop, the
format or the chip-control shadow. -/
theorem set_power_inner_frame (env : Env) (log : List Access) (d : Driver) (b : Bool) :
    (__mt9v032_set_power env log d b).2.2.dev.power_count = d.dev.power_count ∧
    (__mt9v032_set_power env log d b).2.2.dev.crop = d.dev.crop ∧
    (__mt9v032_set_power env log d b).2.2.dev.format = d.dev.format ∧
    (__mt9v032_set_power env log d b).2.2.dev.chip_control = d.dev.chip_control := by
  have hp := power_on_dev env.bus log d
  unfold __mt9v032_set_power
  cases env.clk_get with
  | some e => exact ⟨rfl, rfl, rfl, rfl⟩
  | none =>
    dsimp only
    generalize mt9v032_power_on env.bus log d = r at hp
    obtain ⟨ret, log1, d1⟩ := r
    dsimp only at hp ⊢
    split_ifs <;>
      first
      | exact ⟨rfl, rfl, rfl, rfl⟩
      | (rw [← hp]; exact ⟨rfl, rfl, rfl, rfl⟩)
      | (rw [← hp]; exact handler_setup_frame env.bus _ _ _)

/-- No path through `mt9v032_set_power` changes the power count, the crop, the
format or the chip-control shadow. -/
theorem set_power_frame (env : Env) (log : List Access) (d : Driver) (on_ : Int) :
    (mt9v032_set_power env log d on_).2.2.dev.power_count = d.dev.power_count ∧
    (mt9v032_set_power env log d on_).2.2.dev.crop = d.dev.crop ∧
    (mt9v032_set_power env log d on_).2.2.dev.format = d.dev.format ∧
    (mt9v032_set_power env log d on_).2.2.dev.chip_control = d.dev.chip_control := by
  unfold mt9v032_set_power
  cases set_power_on_arg env on_ with
  | none => exact ⟨rfl, rfl, rfl, rfl⟩
  | some on1 =>
    dsimp only
    by_cases h : d.dev.power_count = (if on1 = 0 then 1 else 0)
    · rw [if_pos h]
      exact set_power_inner_frame env log d _
    · rw [if_neg h]
      exact ⟨rfl, rfl, rfl, rfl⟩

/-- With `CSI_SUBDEV_PWR_ON = 1` the request 1 stays 1. -/
theorem set_power_on_arg_one (env : Env) (hon : env.CSI_SUBDEV_PWR_ON = 1) :
    set_power_on_arg env 1 = some 1 := by
  unfold set_power_on_arg
  rw [if_pos hon.symm]

/-- On a bus whose writes all return 0, the power-on sequence of a driver that
has not run it yet enables the clock, reads CHIP_VERSION, writes RESET twice
and CHIP_CONTROL once, sets `on_done` and returns 0, whatever the read
returns. -/
theorem power_on_cold_ok (bus : Bus) (log : List Access) (d : Driver)
    (hdone : d.on_done = false)
    (hw : ∀ l reg data, bus (l ++ [Access.write reg data]) = 0) :
    mt9v032_power_on bus log d =
      (0, log ++ [Access.clk_prepare_enable, Access.read 0x00, Access.write 0x0C 1,
                  Access.write 0x0C 0, Access.write 0x07 0],
        { d with on_done := true }) := by
  unfold mt9v032_power_on
  rw [hdone]
  simp only [mt9v032_read, mt9v032_write, hw, lt_irrefl, if_false, Bool.false_eq_true]
  simp only [List.append_assoc, List.singleton_append, List.cons_append, List.nil_append,
    MT9V032_CHIP_VERSION, MT9V032_RESET, MT9V032_CHIP_CONTROL]
  rfl

/-- C16. Cold power-on trace: on a freshly constructed instance with no
pixel-clock inversion, a valid clock handle, `CSI_SUBDEV_PWR_ON = 1` and a bus
whose writes all succeed (whatever the CHIP_VERSION read returns, 0x1324
included), the first `mt9v032_set_power(1)` returns 0 and performs, in this
order and with nothing in between: clock enable, read 0x00, write 0x0C <- 1,
write 0x0C <- 0, write 0x07 <- 0, write 0x70 <- 0, then the control replay
(0xAF <- 3, 0x35 <- 16, 0xAF <- 2, 0x0B <- 480, 0x7F <- 0); the crop stays
`{1, 5, 752, 480}` and the format 752x480. -/
theorem cold_power_on_trace (env : Env) (log : List Access)
    (hon : env.CSI_SUBDEV_PWR_ON = 1) (hclk : env.clk_get = none)
    (hw : ∀ l reg data, env.bus (l ++ [Access.write reg data]) = 0) :
    mt9v032_set_power env log (mt9v032_fresh false) 1 =
      (0,
        log ++ [Access.clk_prepare_enable, Access.read 0x00, Access.write 0x0C 1,
                Access.write 0x0C 0, Access.write 0x07 0, Access.write 0x70 0,
                Access.write 0xAF 3, Access.write 0x35 16, Access.write 0xAF 2,
                Access.write 0x0B 480, Access.write 0x7F 0],
        { mt9v032_fresh false with
          on_done := true, dev := { mt9v032_probe with aec_agc := 2 } }) ∧
    (mt9v032_set_power env log (mt9v032_fresh false) 1).2.2.dev.crop =
      { left := 1, top := 5, width := 752, height := 480 } ∧
    (mt9v032_set_power env log (mt9v032_fresh false) 1).2.2.dev.format =
      { width := 752, height := 480 } := by
  have hmain : mt9v032_set_power env log (mt9v032_fresh false) 1 =
      (0,
        log ++ [Access.clk_prepare_enable, Access.read 0x00, Access.write 0x0C 1,
                Access.write 0x0C 0, Access.write 0x07 0, Access.write 0x70 0,
                Access.write 0xAF 3, Access.write 0x35 16, Access.write 0xAF 2,
                Access.write 0x0B 480, Access.write 0x7F 0],
        { mt9v032_fresh false with
          on_done := true, dev := { mt9v032_probe with aec_agc := 2 } }) := by
    unfold mt9v032_set_power
    rw [set_power_on_arg_one env hon]
    dsimp only
    rw [if_pos (by decide)]
    unfold __mt9v032_set_power
    rw [hclk]
    dsimp only
    rw [power_on_cold_ok env.bus log (mt9v032_fresh false) rfl hw]
    simp only [mt9v032_fresh, mt9v032_probe_ctrls, v4l2_ctrl_handler_setup, mt9v032_s_ctrl,
      mt9v032_update_aec_agc, mt9v032_write, hw, lt_irrefl, if_false, Bool.false_eq_true,
      ne_eq, not_true_eq_false, decide_True, decide_False, Bool.not_true, Bool.not_false,
      decide_not, one_ne_zero, not_false_eq_true]
    simp only [List.append_assoc, List.singleton_append, List.cons_append, List.nil_append]
    rfl
  rw [hmain]
  exact ⟨rfl, rfl, rfl⟩

theorem good_bus_write (version : Int) (l : List Access) (reg data : Nat) :
    good_bus version (l ++ [Access.write reg data]) = 0 := by
  unfold good_bus
  rw [List.getLast?_append]
  rfl

/-- C16 (witness). The theorem on a bus whose CHIP_VERSION read returns 0x1324
and whose writes succeed, from an empty history. -/
theorem cold_power_on_trace_witness :
    mt9v032_set_power (good_env 0x1324) [] (mt9v032_fresh false) 1 =
      (0,
        [Access.clk_prepare_enable, Access.read 0x00, Access.write 0x0C 1,
         Access.write 0x0C 0, Access.write 0x07 0, Access.write 0x70 0,
         Access.write 0xAF 3, Access.write 0x35 16, Access.write 0xAF 2,
         Access.write 0x0B 480, Access.write 0x7F 0],
        { mt9v032_fresh false with
          on_done := true, dev := { mt9v032_probe with aec_agc := 2 } }) ∧
    good_bus 0x1324 [Access.clk_prepare_enable, Access.read 0x00] = 0x1324 :=
  ⟨(cold_power_on_trace (good_env 0x1324) [] rfl rfl (good_bus_write 0x1324)).1, rfl⟩

/-- On a bus whose writes all return 0, one control change returns 0 and only
extends the history. -/
theorem s_ctrl_ok (bus : Bus) (log : List Access) (dev : mt9v032) (id : v4l2_cid) (val : Int)
    (hw : ∀ l reg data, bus (l ++ [Access.write reg data]) = 0) :
    ∃ rest dev1, mt9v032_s_ctrl bus log dev id val = (0, log ++ rest, dev1) := by
  cases id <;>
    simp only [mt9v032_s_ctrl, mt9v032_update_aec_agc, mt9v032_write, hw, lt_irrefl,
      if_false]
  all_goals
    first
    | exact ⟨_, _, rfl⟩
    | exact ⟨[], _, by rw [List.append_nil]⟩

/-- On a bus whose writes all return 0, the control replay returns 0 and only
extends the history. -/
theorem handler_setup_ok (bus : Bus) (ctrls : List (v4l2_cid × Int))
    (hw : ∀ l reg data, bus (l ++ [Access.write reg data]) = 0) :
    ∀ (log : List Access) (dev : mt9v032),
      ∃ rest dev1, v4l2_ctrl_handler_setup bus log dev ctrls = (0, log ++ rest, dev1) := by
  induction ctrls with
  | nil => intro log dev; exact ⟨[], dev, by rw [List.append_nil]; rfl⟩
  | cons c tl ih =>
    intro log dev
    obtain ⟨id, val⟩ := c
    obtain ⟨r1, d1, h1⟩ := s_ctrl_ok bus log dev id val hw
    obtain ⟨r2, d2, h2⟩ := ih (log ++ r1) d1
    refine ⟨r1 ++ r2, d2, ?_⟩
    unfold v4l2_ctrl_handler_setup
    rw [h1]
    dsimp only
    rw [if_neg (by simp), h2, List.append_assoc]

/-- On a bus whose writes all return 0, with a valid clock handle and
`CSI_SUBDEV_PWR_ON = 1`, `mt9v032_set_power(1)` on a driver that has not run
the power-on sequence yet runs it to the end and returns 0, whatever the
CHIP_VERSION read returns. -/
theorem set_power_cold_ok (env : Env) (log : List Access) (d : Driver)
    (hon : env.CSI_SUBDEV_PWR_ON = 1) (hclk : env.clk_get = none)
    (hdone : d.on_done = false) (hpc : d.dev.power_count = 0)
    (hw : ∀ l reg data, env.bus (l ++ [Access.write reg data]) = 0) :
    ∃ rest d1,
      mt9v032_set_power env log d 1 =
        (0, log ++ [Access.clk_prepare_enable, Access.read 0x00, Access.write 0x0C 1,
                    Access.write 0x0C 0, Access.write 0x07 0] ++ rest, d1) := by
  unfold mt9v032_set_power
  rw [set_power_on_arg_one env hon]
  dsimp only
  rw [if_pos (by rw [hpc]; decide)]
  unfold __mt9v032_set_power
  rw [hclk]
  dsimp only
  rw [power_on_cold_ok env.bus log d hdone hw]
  simp only [mt9v032_write, hw, lt_irrefl, if_false, Bool.false_eq_true,
    ne_eq, not_true_eq_false, decide_True, decide_False, Bool.not_true, Bool.not_false,
    decide_not, one_ne_zero, not_false_eq_true]
  cases hcp : d.clk_pol
  · simp only [Bool.false_eq_true, if_false, lt_irrefl]
    obtain ⟨r, d1, h⟩ := handler_setup_ok env.bus d.ctrls hw
      (log ++ [Access.clk_prepare_enable, Access.read 0x00, Access.write 0x0C 1,
         Access.write 0x0C 0, Access.write 0x07 0] ++
        [Access.write MT9V032_ROW_NOISE_CORR_CONTROL (u16 0)]) d.dev
    rw [h]
    exact ⟨_, _, by rw [List.append_assoc _ _ r]⟩
  · simp only [if_true, lt_irrefl, if_false]
    obtain ⟨r, d1, h⟩ := handler_setup_ok env.bus d.ctrls hw
      (log ++ [Access.clk_prepare_enable, Access.read 0x00, Access.write 0x0C 1,
         Access.write 0x0C 0, Access.write 0x07 0] ++
        [Access.write MT9V032_PIXEL_CLOCK (u16 (Int.ofNat MT9V032_PIXEL_CLOCK_INV_PXL_CLK))] ++
        [Access.write MT9V032_ROW_NOISE_CORR_CONTROL (u16 0)]) d.dev
    rw [h]
    exact ⟨_, _, by rw [List.append_assoc _ _ r, List.append_assoc _ _ (_ ++ r)]⟩

/-- C14. Power reference counting fails on the code: the statement that updates
the power count is commented out.  On a fresh instance and a succeeding bus,
after `mt9v032_set_power(1)` the power count is 0 although one power-up is
outstanding, and after `mt9v032_set_power(1)`, `mt9v032_set_power(0)` the
clock is still enabled although the calls are balanced: the second call does
nothing at all. -/
theorem power_count_not_counted :
    (set_power_seq (good_env 0x1324) [] (mt9v032_fresh false) [1]).2.dev.power_count = 0 ∧
    power_surplus [1] = 1 ∧
    clk_enabled (set_power_seq (good_env 0x1324) [] (mt9v032_fresh false) [1, 0]).1 = true ∧
    power_surplus [1, 0] = 0 ∧
    set_power_seq (good_env 0x1324) [] (mt9v032_fresh false) [1, 0] =
      set_power_seq (good_env 0x1324) [] (mt9v032_fresh false) [1] := by
  decide

/-- C15. Nested power-ups are not no-ops on the code: because the power count
stays 0, a second `mt9v032_set_power(1)` after a successful first one enters
`__mt9v032_set_power` again and writes ROW_NOISE_CORR_CONTROL and the whole
control replay a second time (six register writes, no clock operation). -/
theorem nested_power_up_rewrites :
    (mt9v032_set_power (good_env 0x1324) [] (mt9v032_fresh false) 1).1 = 0 ∧
    mt9v032_set_power (good_env 0x1324)
        (mt9v032_set_power (good_env 0x1324) [] (mt9v032_fresh false) 1).2.1
        (mt9v032_set_power (good_env 0x1324) [] (mt9v032_fresh false) 1).2.2 1 =
      (0,
        (mt9v032_set_power (good_env 0x1324) [] (mt9v032_fresh false) 1).2.1 ++
          [Access.write 0x70 0, Access.write 0xAF 2, Access.write 0x35 16,
           Access.write 0xAF 2, Access.write 0x0B 480, Access.write 0x7F 0],
        (mt9v032_set_power (good_env 0x1324) [] (mt9v032_fresh false) 1).2.2) := by
  decide

/-- C17 (counterexample). The chip identification does not gate power-on: on a
bus whose CHIP_VERSION read returns 0x0000 and whose writes succeed, the first
`mt9v032_set_power(1)` on a fresh instance (and `mt9v032_open`) returns 0, not
the not-present error, and issues the RESET and CHIP_CONTROL writes. -/
theorem set_power_wrong_chip_counterexample :
    good_bus 0x0000 [Access.clk_prepare_enable, Access.read 0x00] = 0x0000 ∧
    mt9v032_set_power (good_env 0x0000) [] (mt9v032_fresh false) 1 =
      (0,
        [Access.clk_prepare_enable, Access.read 0x00, Access.write 0x0C 1,
         Access.write 0x0C 0, Access.write 0x07 0, Access.write 0x70 0,
         Access.write 0xAF 3, Access.write 0x35 16, Access.write 0xAF 2,
         Access.write 0x0B 480, Access.write 0x7F 0],
        { mt9v032_fresh false with
          on_done := true, dev := { mt9v032_probe with aec_agc := 2 } }) ∧
    (mt9v032_open (good_env 0x0000) [] (mt9v032_fresh false)).1.1 = 0 := by
  decide

/-- The result of `mt9v032_registered` on a driver that has not run the power-on
sequence yet, on a bus whose writes all return 0. -/
theorem registered_cold (bus : Bus) (log : List Access) (d : Driver)
    (hdone : d.on_done = false)
    (hw : ∀ l reg data, bus (l ++ [Access.write reg data]) = 0) :
    mt9v032_registered bus log d =
      (if bus (log ++ [Access.clk_prepare_enable, Access.read 0x00, Access.write 0x0C 1,
              Access.write 0x0C 0, Access.write 0x07 0, Access.read 0x00]) ≠ 0x1311 ∧
          bus (log ++ [Access.clk_prepare_enable, Access.read 0x00, Access.write 0x0C 1,
              Access.write 0x0C 0, Access.write 0x07 0, Access.read 0x00]) ≠ 0x1313 ∧
          bus (log ++ [Access.clk_prepare_enable, Access.read 0x00, Access.write 0x0C 1,
              Access.write 0x0C 0, Access.write 0x07 0, Access.read 0x00]) ≠ 0x1324
        then -19 else 0,
        log ++ [Access.clk_prepare_enable, Access.read 0x00, Access.write 0x0C 1,
                Access.write 0x0C 0, Access.write 0x07 0, Access.read 0x00],
        { d with on_done := true }) := by
  unfold mt9v032_registered
  rw [power_on_cold_ok bus log d hdone hw]
  simp only [mt9v032_read, lt_irrefl, if_false, List.append_assoc, List.singleton_append,
    List.cons_append, List.nil_append, MT9V032_CHIP_VERSION, MT9V032_CHIP_ID_REV1,
    MT9V032_CHIP_ID_REV3, MT9V034_CHIP_ID_REV1, ENODEV]
  split_ifs <;> rfl

/-- C17 (amended). `mt9v032_set_power(1)` does not examine CHIP_VERSION: with a
valid clock handle, `CSI_SUBDEV_PWR_ON = 1` and a bus whose writes succeed, the
first `mt9v032_set_power(1)` proceeds through clock enable, the CHIP_VERSION
read, both RESET writes and the CHIP_CONTROL write and returns 0 whatever the
read returns (the three known identifiers included).  The identification gate
is in `mt9v032_registered`: after the same power-on sequence it reads
CHIP_VERSION again and returns `-ENODEV` for every value other than 0x1311,
0x1313 and 0x1324, and 0 for each of these three. -/
theorem chip_version_checked_at_registration (env : Env) (log : List Access) (d : Driver)
    (hon : env.CSI_SUBDEV_PWR_ON = 1) (hclk : env.clk_get = none)
    (hdone : d.on_done = false) (hpc : d.dev.power_count = 0)
    (hw : ∀ l reg data, env.bus (l ++ [Access.write reg data]) = 0) :
    (∃ rest d1,
      mt9v032_set_power env log d 1 =
        (0, log ++ [Access.clk_prepare_enable, Access.read 0x00, Access.write 0x0C 1,
                    Access.write 0x0C 0, Access.write 0x07 0] ++ rest, d1)) ∧
    mt9v032_registered env.bus log d =
      (if env.bus (log ++ [Access.clk_prepare_enable, Access.read 0x00, Access.write 0x0C 1,
              Access.write 0x0C 0, Access.write 0x07 0, Access.read 0x00]) ≠ 0x1311 ∧
          env.bus (log ++ [Access.clk_prepare_enable, Access.read 0x00, Access.write 0x0C 1,
              Access.write 0x0C 0, Access.write 0x07 0, Access.read 0x00]) ≠ 0x1313 ∧
          env.bus (log ++ [Access.clk_prepare_enable, Access.read 0x00, Access.write 0x0C 1,
              Access.write 0x0C 0, Access.write 0x07 0, Access.read 0x00]) ≠ 0x1324
        then -ENODEV else 0,
        log ++ [Access.clk_prepare_enable, Access.read 0x00, Access.write 0x0C 1,
                Access.write 0x0C 0, Access.write 0x07 0, Access.read 0x00],
        { d with on_done := true }) :=
  ⟨set_power_cold_ok env log d hon hclk hdone hpc hw, registered_cold env.bus log d hdone hw⟩

/-- C17 (witness). The amended statement on a fresh instance and a bus whose
CHIP_VERSION reads return 0x0000: power-on proceeds, registration returns
`-ENODEV`. -/
theorem chip_version_checked_at_registration_witness :
    (∃ rest d1,
      mt9v032_set_power (good_env 0x0000) [] (mt9v032_fresh false) 1 =
        (0, [] ++ [Access.clk_prepare_enable, Access.read 0x00, Access.write 0x0C 1,
                   Access.write 0x0C 0, Access.write 0x07 0] ++ rest, d1)) ∧
    mt9v032_registered (good_bus 0x0000) [] (mt9v032_fresh false) =
      (-ENODEV,
        [Access.clk_prepare_enable, Access.read 0x00, Access.write 0x0C 1,
         Access.write 0x0C 0, Access.write 0x07 0, Access.read 0x00],
        { mt9v032_fresh false with on_done := true }) :=
  chip_version_checked_at_registration (good_env 0x0000) [] (mt9v032_fresh false) rfl rfl rfl
    rfl (good_bus_write 0x0000)

/-- C18 (counterexample). A failed CHIP_VERSION read does not abort power-on: on
a bus whose reads fail with -5 and whose writes succeed, the first
`mt9v032_set_power(1)` on a fresh instance returns 0 and goes on to issue every
later register access. -/
theorem set_power_read_failure_counterexample :
    good_bus (-5) [Access.clk_prepare_enable, Access.read 0x00] = -5 ∧
    mt9v032_set_power (good_env (-5)) [] (mt9v032_fresh false) 1 =
      (0,
        [Access.clk_prepare_enable, Access.read 0x00, Access.write 0x0C 1,
         Access.write 0x0C 0, Access.write 0x07 0, Access.write 0x70 0,
         Access.write 0xAF 3, Access.write 0x35 16, Access.write 0xAF 2,
         Access.write 0x0B 480, Access.write 0x7F 0],
        { mt9v032_fresh false with
          on_done := true, dev := { mt9v032_probe with aec_agc := 2 } }) := by
  decide

/-- C18 (amended). Power-on failure semantics for the register writes: with a
valid clock handle and `CSI_SUBDEV_PWR_ON = 1`, on a driver with power count 0
that has not run the power-on sequence yet, `mt9v032_set_power(1)` enables the
clock and reads CHIP_VERSION without examining the result; if the first `i`
writes of the sequence (RESET, RESET, CHIP_CONTROL, PIXEL_CLOCK when inversion
is requested, ROW_NOISE_CORR_CONTROL) succeed and write number `i + 1` fails,
the call returns that bus error, has issued no later register access, and
leaves the driver instance, its power count included, unchanged. -/
theorem power_on_write_failure (env : Env) (log : List Access) (d : Driver) (i : Nat)
    (hon : env.CSI_SUBDEV_PWR_ON = 1) (hclk : env.clk_get = none)
    (hdone : d.on_done = false) (hpc : d.dev.power_count = 0)
    (hi : i < (power_on_writes d.clk_pol).length)
    (hok : ∀ j, j < i →
      0 ≤ env.bus (log ++ [Access.clk_prepare_enable, Access.read 0x00] ++
        (power_on_writes d.clk_pol).take (j + 1)))
    (hfail : env.bus (log ++ [Access.clk_prepare_enable, Access.read 0x00] ++
        (power_on_writes d.clk_pol).take (i + 1)) < 0) :
    ∃ d1,
      mt9v032_set_power env log d 1 =
        (env.bus (log ++ [Access.clk_prepare_enable, Access.read 0x00] ++
            (power_on_writes d.clk_pol).take (i + 1)),
          log ++ [Access.clk_prepare_enable, Access.read 0x00] ++
            (power_on_writes d.clk_pol).take (i + 1), d1) ∧
      d1.dev = d.dev ∧ d1.dev.power_count = d.dev.power_count := by
  have n0 : 0 < i → ¬ env.bus (log ++ [Access.clk_prepare_enable, Access.read 0x00] ++
      (power_on_writes d.clk_pol).take 1) < 0 := fun h => not_lt.mpr (hok 0 h)
  have n1 : 1 < i → ¬ env.bus (log ++ [Access.clk_prepare_enable, Access.read 0x00] ++
      (power_on_writes d.clk_pol).take 2) < 0 := fun h => not_lt.mpr (hok 1 h)
  have n2 : 2 < i → ¬ env.bus (log ++ [Access.clk_prepare_enable, Access.read 0x00] ++
      (power_on_writes d.clk_pol).take 3) < 0 := fun h => not_lt.mpr (hok 2 h)
  have n3 : 3 < i → ¬ env.bus (log ++ [Access.clk_prepare_enable, Access.read 0x00] ++
      (power_on_writes d.clk_pol).take 4) < 0 := fun h => not_lt.mpr (hok 3 h)
  clear hok
  have u1 : u16 1 = 1 := by decide
  have u0 : u16 0 = 0 := by decide
  have u2 : u16 (Int.ofNat (1 <<< 4)) = 1 <<< 4 := by decide
  obtain ⟨dev, on_done, clk_pol, ctrls⟩ := d
  dsimp only at hdone hpc hi n0 n1 n2 n3 hfail ⊢
  subst hdone
  unfold mt9v032_set_power
  rw [set_power_on_arg_one env hon]
  dsimp only
  rw [if_pos (by rw [hpc]; decide)]
  unfold __mt9v032_set_power mt9v032_power_on
  rw [hclk]
  cases clk_pol <;>
    simp only [power_on_writes, MT9V032_RESET, MT9V032_CHIP_CONTROL, MT9V032_PIXEL_CLOCK,
      MT9V032_PIXEL_CLOCK_INV_PXL_CLK, MT9V032_ROW_NOISE_CORR_CONTROL, MT9V032_CHIP_VERSION,
      if_true, if_false, Bool.false_eq_true, List.append_assoc, List.singleton_append,
      List.cons_append, List.nil_append, List.length_cons, List.length_nil,
      Nat.reduceAdd] at hi n0 n1 n2 n3 hfail ⊢ <;>
    interval_cases i <;>
    simp only [List.take, Nat.reduceAdd, Nat.lt_irrefl, Nat.reduceLT, forall_const,
      List.append_assoc, List.singleton_append, List.cons_append, List.nil_append,
      IsEmpty.forall_iff] at n0 n1 n2 n3 hfail ⊢ <;>
    simp only [mt9v032_read, mt9v032_write, u1, u0, u2, MT9V032_PIXEL_CLOCK_INV_PXL_CLK,
      List.append_assoc, List.singleton_append, List.cons_append, List.nil_append,
      hfail, n0, n1, n2, n3, if_true, if_false, Bool.false_eq_true, Bool.not_true,
      ne_eq, one_ne_zero, not_false_eq_true, decide_True, decide_False, Bool.not_false,
      lt_irrefl] <;>
    exact ⟨_, rfl, rfl, rfl⟩

/-- C18 (witness). The amended statement on a fresh instance with a bus that
rejects the second RESET write: the call returns that error after it and the
driver instance is unchanged. -/
theorem power_on_write_failure_witness :
    ∃ d1,
      mt9v032_set_power
          { bus := fun l => if l.length = 4 then -5 else 0, clk_get := none,
            CSI_SUBDEV_PWR_ON := 1, CSI_SUBDEV_PWR_OFF := 0 }
          [] (mt9v032_fresh false) 1 =
        (-5, [Access.clk_prepare_enable, Access.read 0x00, Access.write 0x0C 1,
              Access.write 0x0C 0], d1) ∧
      d1.dev = mt9v032_probe ∧ d1.dev.power_count = 0 :=
  power_on_write_failure
    { bus := fun l => if l.length = 4 then -5 else 0, clk_get := none,
      CSI_SUBDEV_PWR_ON := 1, CSI_SUBDEV_PWR_OFF := 0 }
    [] (mt9v032_fresh false) 1 rfl rfl rfl rfl (by decide)
    (by intro j hj; interval_cases j; decide) (by decide)

/-! ## Register shadows -/

theorem last_write_append_write (reg v : Nat) (log : List Access) :
    last_write reg (log ++ [Access.write reg v]) = some v := by
  unfold last_write
  rw [List.reverse_append]
  simp

/-- When `mt9v032_set_chip_control` returns 0 (its write was accepted), the
chip-control shadow equals the last value written to CHIP_CONTROL. -/
theorem set_chip_control_shadow (bus : Bus) (log : List Access) (dev : mt9v032)
    (clear set : Nat) (h : 0 ≤ bus (log ++ [Access.write 0x07
      (((dev.chip_control &&& (65535 ^^^ clear)) ||| set) % 65536)])) :
    last_write 0x07 (mt9v032_set_chip_control bus log dev clear set).2.1 =
      some (mt9v032_set_chip_control bus log dev clear set).2.2.chip_control := by
  have hu : u16 (Int.ofNat (((dev.chip_control &&& (65535 ^^^ clear)) ||| set) % 65536)) =
      ((dev.chip_control &&& (65535 ^^^ clear)) ||| set) % 65536 := by
    unfold u16; simp only [Int.ofNat_eq_coe]; omega
  simp only [mt9v032_set_chip_control, mt9v032_write, hu, MT9V032_CHIP_CONTROL,
    not_lt.mpr h, if_false]
  exact last_write_append_write _ _ _

/-- When `mt9v032_update_aec_agc` has its write accepted, the AEC/AGC shadow
equals the last value written to AEC_AGC_ENABLE. -/
theorem update_aec_agc_shadow (bus : Bus) (log : List Access) (dev : mt9v032)
    (which : Nat) (enable : Int)
    (h : ∀ l, 0 ≤ bus l) :
    last_write 0xAF (mt9v032_update_aec_agc bus log dev which enable).2.1 =
      some (mt9v032_update_aec_agc bus log dev which enable).2.2.aec_agc := by
  have hu : ∀ x : Nat, u16 (Int.ofNat (x % 65536)) = x % 65536 := by
    intro x; unfold u16; simp only [Int.ofNat_eq_coe]; omega
  simp only [mt9v032_update_aec_agc, mt9v032_write, MT9V032_AEC_AGC_ENABLE,
    not_lt.mpr (h _), if_false]
  split_ifs <;> rw [hu] <;> exact last_write_append_write _ _ _

/-- C19. Shadow consistency fails on the power-on path: `mt9v032_power_on` writes
CHIP_CONTROL with `mt9v032_write` directly and leaves the shadow alone.  After
`mt9v032_init` on a fresh instance (shadow 0x188), the first
`mt9v032_set_power(1)` on a succeeding bus returns 0 having written 0 to
CHIP_CONTROL as its last write to that register, while the shadow still holds
0x188. -/
theorem power_on_bypasses_shadow :
    mt9v032_init (good_bus 0x1324) [] mt9v032_probe =
      (0, [Access.write 0x07 0x188], { mt9v032_probe with chip_control := 0x188 }) ∧
    (mt9v032_set_power (good_env 0x1324) [Access.write 0x07 0x188]
      { mt9v032_fresh false with dev := { mt9v032_probe with chip_control := 0x188 } } 1).1
        = 0 ∧
    last_write 0x07
      (mt9v032_set_power (good_env 0x1324) [Access.write 0x07 0x188]
        { mt9v032_fresh false with dev := { mt9v032_probe with chip_control := 0x188 } }
        1).2.1 = some 0 ∧
    (mt9v032_set_power (good_env 0x1324) [Access.write 0x07 0x188]
      { mt9v032_fresh false with dev := { mt9v032_probe with chip_control := 0x188 } }
      1).2.2.dev.chip_control = 0x188 := by
  decide

/-! ## Size enumeration -/

/-- C23 (counterexample). Index 8 is rejected: with the GRBG10 code,
`mt9v032_enum_frame_size` at index 8 returns `-EINVAL` and reports no size. -/
theorem enum_frame_size_index_8_counterexample :
    mt9v032_enum_frame_size
        { index := 8, code := V4L2_MBUS_FMT_SGRBG10_1X10, min_width := 0, max_width := 0,
          min_height := 0, max_height := 0 } =
      some (-EINVAL,
        { index := 8, code := V4L2_MBUS_FMT_SGRBG10_1X10, min_width := 0, max_width := 0,
          min_height := 0, max_height := 0 }) ∧
    -EINVAL ≠ 0 := by
  decide

/-- C23 (amended). Size enumeration: for every index `i` with `1 ≤ i ≤ 7` and the
GRBG10 code, `mt9v032_enum_frame_size` returns 0 and reports
`min_width = max_width = 752 / i` and `min_height = max_height = 480 / i`
(integer division); for every index `i ≥ 8` it returns `-EINVAL` and leaves the
request untouched. -/
theorem enum_frame_size_sizes (fse : v4l2_subdev_frame_size_enum)
    (hcode : fse.code = V4L2_MBUS_FMT_SGRBG10_1X10) (h1 : 1 ≤ fse.index) :
    mt9v032_enum_frame_size fse =
      if fse.index ≤ 7 then
        some (0, { fse with min_width := 752 / fse.index, max_width := 752 / fse.index,
                            min_height := 480 / fse.index, max_height := 480 / fse.index })
      else some (-EINVAL, fse) := by
  unfold mt9v032_enum_frame_size
  by_cases h8 : fse.index ≤ 7
  · rw [if_pos h8, if_neg (by rw [hcode]; simp only [ne_eq, not_true_eq_false, or_false]; omega)]
    have hw : udiv MT9V032_WINDOW_WIDTH_DEF fse.index = some (752 / fse.index) := by
      unfold udiv; rw [if_neg (by omega)]; rfl
    have hh : udiv MT9V032_WINDOW_HEIGHT_DEF fse.index = some (480 / fse.index) := by
      unfold udiv; rw [if_neg (by omega)]; rfl
    simp only [hw, hh, Option.bind_eq_bind, Option.some_bind, Option.pure_def]
  · rw [if_neg h8, if_pos (Or.inl (by omega))]

/-- C23 (witness). The amended statement at index 3: sizes 250x160. -/
theorem enum_frame_size_sizes_witness :
    mt9v032_enum_frame_size
        { index := 3, code := V4L2_MBUS_FMT_SGRBG10_1X10, min_width := 0, max_width := 0,
          min_height := 0, max_height := 0 } =
      some (0, { index := 3, code := V4L2_MBUS_FMT_SGRBG10_1X10, min_width := 250,
                 max_width := 250, min_height := 160, max_height := 160 }) :=
  enum_frame_size_sizes
    { index := 3, code := V4L2_MBUS_FMT_SGRBG10_1X10, min_width := 0, max_width := 0,
      min_height := 0, max_height := 0 } rfl (by decide)

/-- C28. Size enumeration is not total on the code: index 0 with the GRBG10 code
passes the guard `index >= 8` and is then used as the divisor of
`MT9V032_WINDOW_WIDTH_DEF / index`, a division by zero. -/
theorem enum_frame_size_index_0_faults :
    mt9v032_enum_frame_size
        { index := 0, code := V4L2_MBUS_FMT_SGRBG10_1X10, min_width := 0, max_width := 0,
          min_height := 0, max_height := 0 } = none ∧
    udiv MT9V032_WINDOW_WIDTH_DEF 0 = none := by
  decide

/-! ## Frame interval -/

/-- C24 (counterexample). The accepted interval is not recorded: `mt9v032_s_parm`
with the video-capture type and time per frame 1/30 returns 0, and a following
`mt9v032_g_parm` reports 1/60, not 1/30. -/
theorem parm_round_trip_counterexample :
    mt9v032_s_parm { type := V4L2_BUF_TYPE_VIDEO_CAPTURE,
                     timeperframe := { numerator := 1, denominator := 30 } } =
      some (0, { type := V4L2_BUF_TYPE_VIDEO_CAPTURE,
                 timeperframe := { numerator := 1, denominator := 30 } }) ∧
    (mt9v032_g_parm { type := V4L2_BUF_TYPE_VIDEO_CAPTURE,
                      timeperframe := { numerator := 1, denominator := 30 } }).2.timeperframe =
      { numerator := 1, denominator := 60 } ∧
    (mt9v032_g_parm { type := V4L2_BUF_TYPE_VIDEO_CAPTURE,
                      timeperframe := { numerator := 1, denominator := 30 } }).2.timeperframe ≠
      { numerator := 1, denominator := 30 } := by
  decide

/-- C24 (amended). For every `d` in 4..60, `mt9v032_s_parm` with the video-capture
type and time per frame `1/d` returns 0 and leaves the request as it is; the
interval is not recorded: `mt9v032_g_parm` with the video-capture type returns
0 and reports the time per frame 1/60 whatever it is handed. -/
theorem parm_accepts_and_reports_full_rate (d : Nat) (h4 : 4 ≤ d) (h60 : d ≤ 60)
    (p : v4l2_streamparm) (hp : p.type = V4L2_BUF_TYPE_VIDEO_CAPTURE) :
    mt9v032_s_parm { type := V4L2_BUF_TYPE_VIDEO_CAPTURE,
                     timeperframe := { numerator := 1, denominator := d } } =
      some (0, { type := V4L2_BUF_TYPE_VIDEO_CAPTURE,
                 timeperframe := { numerator := 1, denominator := d } }) ∧
    mt9v032_g_parm p =
      (0, { p with timeperframe := { numerator := 1, denominator := 60 } }) := by
  constructor
  · interval_cases d <;> decide
  · unfold mt9v032_g_parm
    rw [if_neg (by rw [hp]; simp)]

/-- C24 (witness). The amended statement at `d = 30`. -/
theorem parm_accepts_and_reports_full_rate_witness :
    mt9v032_s_parm { type := V4L2_BUF_TYPE_VIDEO_CAPTURE,
                     timeperframe := { numerator := 1, denominator := 30 } } =
      some (0, { type := V4L2_BUF_TYPE_VIDEO_CAPTURE,
                 timeperframe := { numerator := 1, denominator := 30 } }) ∧
    mt9v032_g_parm { type := V4L2_BUF_TYPE_VIDEO_CAPTURE,
                     timeperframe := { numerator := 1, denominator := 30 } } =
      (0, { type := V4L2_BUF_TYPE_VIDEO_CAPTURE,
            timeperframe := { numerator := 1, denominator := 60 } }) :=
  parm_accepts_and_reports_full_rate 30 (by decide) (by decide)
    { type := V4L2_BUF_TYPE_VIDEO_CAPTURE,
      timeperframe := { numerator := 1, denominator := 30 } } rfl

/-- C29. Frame-interval setting is not total on the code: with the video-capture
type, numerator 2 and denominator 1 (numerator > denominator > 0) the quotient
`denominator / numerator` is 0 and `60 / 0` is a division by zero. -/
theorem s_parm_divides_by_zero :
    mt9v032_s_parm { type := V4L2_BUF_TYPE_VIDEO_CAPTURE,
                     timeperframe := { numerator := 2, denominator := 1 } } = none ∧
    udiv (Int.ofNat 1) 2 = some 0 ∧ udiv 60 0 = none := by
  decide

/-! ## Odd-aligned crop scenario -/

/-- C25 (counterexample). From the default state, `mt9v032_set_crop` with the
request `{left = 2, top = 4, width = 751, height = 479}` does not return
`{left = 1, top = 5, width = 750, height = 478}`. -/
theorem set_crop_scenario_counterexample :
    (mt9v032_set_crop default_ctx V4L2_SUBDEV_FORMAT_ACTIVE
      { left := 2, top := 4, width := 751, height := 479 }).2 ≠
      { left := 1, top := 5, width := 750, height := 478 } := by
  decide

/-- C25 (amended). From the default state, `mt9v032_set_crop` with the request
`{left = 2, top = 4, width = 751, height = 479}` returns and installs
`{left = 3, top = 5, width = 752, height = 480}`: `ALIGN` rounds up, so left 2
becomes the next odd number 3 and the odd sizes 751 and 479 become 752 and
480; the format stays 752x480. -/
theorem set_crop_scenario_rounds_up :
    mt9v032_set_crop default_ctx V4L2_SUBDEV_FORMAT_ACTIVE
        { left := 2, top := 4, width := 751, height := 479 } =
      ({ default_ctx with dev := { mt9v032_probe with
            crop := { left := 3, top := 5, width := 752, height := 480 } } },
       { left := 3, top := 5, width := 752, height := 480 }) := by
  decide

/-! ## Automatic exposure and gain -/

/-- C21. The auto-exposure control drives the AEC bit the wrong way round on the
code: `mt9v032_s_ctrl` hands `ctrl->val` to `mt9v032_update_aec_agc` as the
enable flag, so on a fresh instance (shadow 3) the value 'auto'
(`V4L2_EXPOSURE_AUTO` = 0) writes AEC_AGC_ENABLE with 2, bit 0 clear, and from
there the value 'manual' (`V4L2_EXPOSURE_MANUAL` = 1) writes 3, bit 0 set;
after the default control replay of the first power-on the shadow is 2, AEC
bit clear. -/
theorem exposure_auto_clears_aec_bit :
    mt9v032_s_ctrl (good_bus 0x1324) [] mt9v032_probe V4L2_CID_EXPOSURE_AUTO
        V4L2_EXPOSURE_AUTO =
      (0, [Access.write 0xAF 2], { mt9v032_probe with aec_agc := 2 }) ∧
    (2 : Nat).testBit 0 = false ∧
    mt9v032_s_ctrl (good_bus 0x1324) [] { mt9v032_probe with aec_agc := 2 }
        V4L2_CID_EXPOSURE_AUTO V4L2_EXPOSURE_MANUAL =
      (0, [Access.write 0xAF 3], { mt9v032_probe with aec_agc := 3 }) ∧
    (3 : Nat).testBit 0 = true ∧
    (mt9v032_set_power (good_env 0x1324) [] (mt9v032_fresh false) 1).2.2.dev.aec_agc = 2 ∧
    last_write 0xAF (mt9v032_set_power (good_env 0x1324) [] (mt9v032_fresh false) 1).2.1 =
      some 2 := by
  decide

/-- Setting bit `k` of a number changes no other bit. -/
theorem testBit_or_two_pow (a k j : Nat) (hj : j ≠ k) :
    (a ||| 2 ^ k).testBit j = a.testBit j := by
  rw [Nat.testBit_or, Nat.testBit_two_pow]
  have : decide (k = j) = false := decide_eq_false (fun h => hj h.symm)
  rw [this, Bool.or_false]

/-- Clearing bit `k` of a 16-bit number changes no other bit. -/
theorem testBit_and_not_two_pow (a k j : Nat) (ha : a < 65536) (hj : j ≠ k) :
    (a &&& (65535 ^^^ 2 ^ k)).testBit j = a.testBit j := by
  rw [Nat.testBit_and, Nat.testBit_xor, Nat.testBit_two_pow]
  have h1 : decide (k = j) = false := decide_eq_false (fun h => hj h.symm)
  have h2 : (65535 : Nat) = 2 ^ 16 - 1 := by norm_num
  rw [h1, h2, Nat.testBit_two_pow_sub_one]
  by_cases h16 : j < 16
  · simp [h16]
  · have hlt : a < 2 ^ j := by
      have : (2 : Nat) ^ 16 ≤ 2 ^ j := Nat.pow_le_pow_right (by norm_num) (by omega)
      omega
    rw [Nat.testBit_lt_two_pow hlt]
    simp

/-- The value `mt9v032_update_aec_agc` computes from a 16-bit shadow for the bit
`2 ^ k` (`k < 16`) differs from the shadow at most in bit `k` and fits 16 bits. -/
theorem update_aec_agc_value (aec k : Nat) (enable : Int) (ha : aec < 65536) (hk : k < 16) :
    (∀ j, j ≠ k →
      (if enable ≠ 0 then (aec ||| 2 ^ k) % 65536
        else (aec &&& (65535 ^^^ 2 ^ k)) % 65536).testBit j = aec.testBit j) ∧
    (if enable ≠ 0 then (aec ||| 2 ^ k) % 65536
      else (aec &&& (65535 ^^^ 2 ^ k)) % 65536) < 65536 := by
  have hp : (2 : Nat) ^ k < 2 ^ 16 := Nat.pow_lt_pow_right (by norm_num) hk
  have h1 : (aec ||| 2 ^ k) % 65536 = aec ||| 2 ^ k := by
    apply Nat.mod_eq_of_lt
    have := Nat.or_lt_two_pow (n := 16) (x := aec) (y := 2 ^ k) (by omega) hp
    omega
  have h2 : (aec &&& (65535 ^^^ 2 ^ k)) % 65536 = aec &&& (65535 ^^^ 2 ^ k) := by
    apply Nat.mod_eq_of_lt
    have := Nat.and_le_left (n := aec) (m := 65535 ^^^ 2 ^ k)
    omega
  rw [h1, h2]
  refine ⟨?_, ?_⟩
  · intro j hj
    by_cases he : enable ≠ 0
    · rw [if_pos he]; exact testBit_or_two_pow aec k j hj
    · rw [if_neg he]; exact testBit_and_not_two_pow aec k j ha hj
  · by_cases he : enable ≠ 0
    · rw [if_pos he, ← h1]; exact Nat.mod_lt _ (by norm_num)
    · rw [if_neg he, ← h2]; exact Nat.mod_lt _ (by norm_num)

/-- What `mt9v032_update_aec_agc` returns, with the written value named. -/
theorem update_aec_agc_eq (bus : Bus) (log : List Access) (dev : mt9v032)
    (which : Nat) (enable : Int) (v : Nat)
    (hv : v = if enable ≠ 0 then (dev.aec_agc ||| which) % 65536
      else (dev.aec_agc &&& (65535 ^^^ which)) % 65536) :
    mt9v032_update_aec_agc bus log dev which enable =
      if bus (log ++ [Access.write 0xAF v]) < 0 then
        (bus (log ++ [Access.write 0xAF v]), log ++ [Access.write 0xAF v], dev)
      else (0, log ++ [Access.write 0xAF v], { dev with aec_agc := v }) := by
  have hlt : v < 65536 := by
    rw [hv]; split_ifs <;> exact Nat.mod_lt _ (by norm_num)
  have hu : u16 (Int.ofNat v) = v := by
    unfold u16; simp only [Int.ofNat_eq_coe]; omega
  unfold mt9v032_update_aec_agc
  simp only [mt9v032_write, MT9V032_AEC_AGC_ENABLE, ← hv, hu]

/-- C22. AEC/AGC changes are a single read-modify-write: for every 16-bit
shadow value, one auto-gain (bit `k = 1`) or auto-exposure (bit `k = 0`)
control change issues exactly one register write, to AEC_AGC_ENABLE (0xAF); the
written 16-bit value agrees with the prior shadow in every bit other than
`k`; when the write succeeds the call returns 0 and the shadow takes that
value, when it fails the bus error is returned and the shadow is unchanged. -/
theorem aec_agc_single_write (bus : Bus) (log : List Access) (dev : mt9v032)
    (id : v4l2_cid) (val : Int) (k : Nat)
    (hid : (id = V4L2_CID_AUTOGAIN ∧ k = 1) ∨ (id = V4L2_CID_EXPOSURE_AUTO ∧ k = 0))
    (hs : IsU16 dev.aec_agc) :
    ∃ v : Nat,
      mt9v032_s_ctrl bus log dev id val =
        (if bus (log ++ [Access.write 0xAF v]) < 0 then
          (bus (log ++ [Access.write 0xAF v]), log ++ [Access.write 0xAF v], dev)
        else (0, log ++ [Access.write 0xAF v], { dev with aec_agc := v })) ∧
      (∀ j, j ≠ k → v.testBit j = dev.aec_agc.testBit j) ∧
      IsU16 v := by
  have hk : k < 16 := by rcases hid with ⟨-, h⟩ | ⟨-, h⟩ <;> omega
  obtain ⟨hbits, hlt⟩ := update_aec_agc_value dev.aec_agc k val hs hk
  refine ⟨_, ?_, hbits, hlt⟩
  rcases hid with ⟨h1, h2⟩ | ⟨h1, h2⟩
  · subst h1 h2
    exact update_aec_agc_eq bus log dev MT9V032_AGC_ENABLE val _ rfl
  · subst h1 h2
    exact update_aec_agc_eq bus log dev MT9V032_AEC_ENABLE val _ rfl

/-- C22 (witness). The theorem for the auto-gain control switched off on a fresh
instance (shadow 3) with a succeeding bus: one write 0xAF <- 1. -/
theorem aec_agc_single_write_witness :
    ∃ v : Nat,
      mt9v032_s_ctrl (good_bus 0x1324) [] mt9v032_probe V4L2_CID_AUTOGAIN 0 =
        (if good_bus 0x1324 ([] ++ [Access.write 0xAF v]) < 0 then
          (good_bus 0x1324 ([] ++ [Access.write 0xAF v]), [] ++ [Access.write 0xAF v],
            mt9v032_probe)
        else (0, [] ++ [Access.write 0xAF v], { mt9v032_probe with aec_agc := v })) ∧
      (∀ j, j ≠ 1 → v.testBit j = mt9v032_probe.aec_agc.testBit j) ∧
      IsU16 v :=
  aec_agc_single_write (good_bus 0x1324) [] mt9v032_probe V4L2_CID_AUTOGAIN 0 1
    (Or.inl ⟨rfl, rfl⟩) (by decide)

/-! ## Ratios: no zero divisor, and what stream start recomputes -/

/-- The clamped size of `mt9v032_set_format` is even, or it is one of the two
clamp limits. -/
theorem set_format_clamped_shape (cw : Int) (lo : Int) (req : Nat) (hlo : lo = 1)
    (h1 : 1 ≤ cw) (h2 : cw < 2147483648) :
    set_format_clamped cw lo req % 2 = 0 ∨
    set_format_clamped cw lo req = max (cw.toNat / 8) 1 ∨
    set_format_clamped cw lo req = cw.toNat := by
  subst hlo
  have ht : Int.tdiv cw 8 = cw / 8 := Int.tdiv_eq_ediv (by omega) (by norm_num)
  have hu : u32 cw = cw.toNat := by unfold u32; omega
  unfold set_format_clamped clamp_t_uint kmax
  rw [ht, hu]
  have ha : u32 (Int.ofNat (ALIGN_u32 req 2)) = ALIGN_u32 req 2 := by
    rw [ALIGN_u32_two]; unfold u32; simp only [Int.ofNat_eq_coe]; omega
  have ha2 : ALIGN_u32 req 2 % 2 = 0 := by
    rw [ALIGN_u32_two]; omega
  rw [ha]
  generalize ALIGN_u32 req 2 = a at ha2
  have hk : u32 (if cw / 8 > 1 then cw / 8 else 1) = max (cw.toNat / 8) 1 := by
    unfold u32; split_ifs <;> omega
  rw [hk]
  dsimp only
  split_ifs <;> omega

/-- For a crop size of at least 112, the ratio that `mt9v032_s_stream` recomputes
from the crop size and the installed size `crop / ratio` is the ratio that
`mt9v032_set_format` chose. -/
theorem set_format_ratio_recomputed (cw : Int) (lo : Int) (req : Nat) (hlo : lo = 1)
    (h1 : 112 ≤ cw) (h2 : cw < 2147483648) :
    ∃ ratio : Nat,
      set_format_ratio cw lo req = some ratio ∧
      DIV_ROUND_CLOSEST cw (cw.toNat / ratio) = some ratio := by
  obtain ⟨w, ratio, hw, hw1, hw2, hr, hre, -, r1, r2, r3, -⟩ :=
    set_format_dim cw lo req hlo (by omega) h2
  have hshape := set_format_clamped_shape cw lo req hlo (by omega) h2
  rw [hw] at hshape
  refine ⟨ratio, hr, ?_⟩
  have hw0 : 0 < w := by omega
  have hu : u32 cw = cw.toNat := by unfold u32; omega
  have a1 : ratio * w ≤ cw.toNat + w / 2 :=
    (Nat.le_div_iff_mul_le hw0).mp (le_of_eq hre)
  have a2 : cw.toNat + w / 2 < (ratio + 1) * w :=
    (Nat.div_lt_iff_lt_mul hw0).mp (by omega)
  have b1 : ratio * (cw.toNat / ratio) ≤ cw.toNat := Nat.mul_div_le _ _
  have b2 : cw.toNat < ratio * (cw.toNat / ratio) + ratio := by
    have := Nat.div_add_mod cw.toNat ratio
    have := Nat.mod_lt cw.toNat (show ratio > 0 by omega)
    omega
  have hn1 : 112 ≤ cw.toNat := by omega
  have hn2 : cw.toNat < 2147483648 := by omega
  generalize cw.toNat / ratio = f at b1 b2 ⊢
  generalize cw.toNat = n at *
  clear hre hr hw
  have hf0 : 0 < f := by
    rcases Nat.eq_zero_or_pos f with h | h
    · subst h; omega
    · exact h
  have hfn : f ≤ n := by
    have : f ≤ ratio * f := Nat.le_mul_of_pos_left _ (by omega)
    omega
  have key : (n + f / 2) / f = ratio := by
    apply Nat.div_eq_of_lt_le
    · interval_cases ratio <;> omega
    · interval_cases ratio <;> omega
  unfold DIV_ROUND_CLOSEST
  rw [if_neg (by omega), hu, Nat.mod_eq_of_lt (by omega), key]

/-- C26. `mt9v032_set_format` never divides by zero: for every selected crop with
width and height at least 1 (and representable as 32-bit signed values) and
every requested width and height, the clamped width and height and the ratios
`hratio` and `vratio` are at least 1, the call returns, and the installed
format satisfies `1 ≤ format.width ≤ crop.width` and
`1 ≤ format.height ≤ crop.height`; hence the `DIV_ROUND_CLOSEST(crop, format)`
that `mt9v032_s_stream` evaluates afterwards are defined as well. -/
theorem set_format_no_zero_divisor (c : Ctx) (which : v4l2_subdev_format_whence)
    (req : v4l2_mbus_framefmt)
    (hw1 : 1 ≤ (__mt9v032_get_pad_crop c which).width)
    (hw2 : IsS32 (__mt9v032_get_pad_crop c which).width)
    (hh1 : 1 ≤ (__mt9v032_get_pad_crop c which).height)
    (hh2 : IsS32 (__mt9v032_get_pad_crop c which).height) :
    ∃ (hratio vratio : Nat) (c1 : Ctx) (f : v4l2_mbus_framefmt),
      1 ≤ set_format_clamped (__mt9v032_get_pad_crop c which).width
        MT9V032_WINDOW_WIDTH_MIN req.width ∧
      1 ≤ set_format_clamped (__mt9v032_get_pad_crop c which).height
        MT9V032_WINDOW_HEIGHT_MIN req.height ∧
      set_format_ratio (__mt9v032_get_pad_crop c which).width
        MT9V032_WINDOW_WIDTH_MIN req.width = some hratio ∧
      set_format_ratio (__mt9v032_get_pad_crop c which).height
        MT9V032_WINDOW_HEIGHT_MIN req.height = some vratio ∧
      1 ≤ hratio ∧ 1 ≤ vratio ∧
      mt9v032_set_format c which req = some (c1, f) ∧
      __mt9v032_get_pad_format c1 which = f ∧
      __mt9v032_get_pad_crop c1 which = __mt9v032_get_pad_crop c which ∧
      1 ≤ f.width ∧ Int.ofNat f.width ≤ (__mt9v032_get_pad_crop c which).width ∧
      1 ≤ f.height ∧ Int.ofNat f.height ≤ (__mt9v032_get_pad_crop c which).height ∧
      (DIV_ROUND_CLOSEST (__mt9v032_get_pad_crop c1 which).width
        (__mt9v032_get_pad_format c1 which).width).isSome = true ∧
      (DIV_ROUND_CLOSEST (__mt9v032_get_pad_crop c1 which).height
        (__mt9v032_get_pad_format c1 which).height).isSome = true := by
  unfold IsS32 at hw2 hh2
  obtain ⟨w, hr, hcw, hw1b, -, hrw, -, hdw, a1, a2, -, -⟩ :=
    set_format_dim _ MT9V032_WINDOW_WIDTH_MIN req.width rfl hw1 hw2.2
  obtain ⟨h, vr, hch, hh1b, -, hrh, -, hdh, b1, b2, -, -⟩ :=
    set_format_dim _ MT9V032_WINDOW_HEIGHT_MIN req.height rfl hh1 hh2.2
  have fw1 : 1 ≤ (__mt9v032_get_pad_crop c which).width.toNat / hr := by
    rw [Nat.le_div_iff_mul_le (by omega)]; omega
  have fh1 : 1 ≤ (__mt9v032_get_pad_crop c which).height.toNat / vr := by
    rw [Nat.le_div_iff_mul_le (by omega)]; omega
  have fw2 := Nat.div_le_self (__mt9v032_get_pad_crop c which).width.toNat hr
  have fh2 := Nat.div_le_self (__mt9v032_get_pad_crop c which).height.toNat vr
  refine ⟨hr, vr, _, _, by omega, by omega, hrw, hrh, a1, b1,
    set_format_of_ratios c which req hr vr _ _ hrw hrh hdw hdh,
    get_format_set_format _ _ _, get_crop_set_format _ _ _, fw1, ?_, fh1, ?_, ?_, ?_⟩
  · simp only [Int.ofNat_eq_coe]; omega
  · simp only [Int.ofNat_eq_coe]; omega
  · rw [get_crop_set_format, get_format_set_format]
    unfold DIV_ROUND_CLOSEST
    rw [if_neg (by dsimp only; omega)]
    rfl
  · rw [get_crop_set_format, get_format_set_format]
    unfold DIV_ROUND_CLOSEST
    rw [if_neg (by dsimp only; omega)]
    rfl

/-- C26 (witness). The theorem at the default state and the request 0x0: both
ratios are 8 and the format 94x60 is installed. -/
theorem set_format_no_zero_divisor_witness :
    mt9v032_set_format default_ctx V4L2_SUBDEV_FORMAT_ACTIVE { width := 0, height := 0 } =
      some ({ default_ctx with dev := { mt9v032_probe with
                format := { width := 94, height := 60 } } },
            { width := 94, height := 60 }) ∧
    ∃ (hratio vratio : Nat) (c1 : Ctx) (f : v4l2_mbus_framefmt),
      1 ≤ set_format_clamped 752 MT9V032_WINDOW_WIDTH_MIN 0 ∧
      1 ≤ set_format_clamped 480 MT9V032_WINDOW_HEIGHT_MIN 0 ∧
      set_format_ratio 752 MT9V032_WINDOW_WIDTH_MIN 0 = some hratio ∧
      set_format_ratio 480 MT9V032_WINDOW_HEIGHT_MIN 0 = some vratio ∧
      1 ≤ hratio ∧ 1 ≤ vratio ∧
      mt9v032_set_format default_ctx V4L2_SUBDEV_FORMAT_ACTIVE
        { width := 0, height := 0 } = some (c1, f) ∧
      __mt9v032_get_pad_format c1 V4L2_SUBDEV_FORMAT_ACTIVE = f ∧
      __mt9v032_get_pad_crop c1 V4L2_SUBDEV_FORMAT_ACTIVE =
        __mt9v032_get_pad_crop default_ctx V4L2_SUBDEV_FORMAT_ACTIVE ∧
      1 ≤ f.width ∧ Int.ofNat f.width ≤ 752 ∧
      1 ≤ f.height ∧ Int.ofNat f.height ≤ 480 ∧
      (DIV_ROUND_CLOSEST (__mt9v032_get_pad_crop c1 V4L2_SUBDEV_FORMAT_ACTIVE).width
        (__mt9v032_get_pad_format c1 V4L2_SUBDEV_FORMAT_ACTIVE).width).isSome = true ∧
      (DIV_ROUND_CLOSEST (__mt9v032_get_pad_crop c1 V4L2_SUBDEV_FORMAT_ACTIVE).height
        (__mt9v032_get_pad_format c1 V4L2_SUBDEV_FORMAT_ACTIVE).height).isSome = true :=
  ⟨by decide,
   set_format_no_zero_divisor default_ctx V4L2_SUBDEV_FORMAT_ACTIVE
     { width := 0, height := 0 } (by decide) (by decide) (by decide) (by decide)⟩

/-- C27 (counterexample). The recomputed ratio can differ from the chosen one:
after `mt9v032_set_crop` to `{1, 5, 14, 480}`, `mt9v032_set_format` with the
request 4x480 chooses `hratio = 4` and installs width `14 / 4 = 3`, from which
`mt9v032_s_stream` recomputes `DIV_ROUND_CLOSEST(14, 3) = 5`. -/
theorem stream_ratio_counterexample :
    ∃ c1 f, mt9v032_set_format
        (mt9v032_set_crop default_ctx V4L2_SUBDEV_FORMAT_ACTIVE
          { left := 1, top := 5, width := 14, height := 480 }).1
        V4L2_SUBDEV_FORMAT_ACTIVE { width := 4, height := 480 } = some (c1, f) ∧
      c1.dev.crop.width = 14 ∧ c1.dev.format.width = 3 ∧
      set_format_ratio 14 MT9V032_WINDOW_WIDTH_MIN 4 = some 4 ∧
      DIV_ROUND_CLOSEST c1.dev.crop.width c1.dev.format.width = some 5 := by
  refine ⟨_, _, rfl, ?_⟩
  decide

/-- C27 (amended). For every selected crop with `1 ≤ width ≤ 752` and
`1 ≤ height ≤ 480` and every requested size, `mt9v032_set_format` returns, and
the `hratio` that `mt9v032_s_stream` recomputes as
`DIV_ROUND_CLOSEST(crop.width, format.width)` equals the `hratio` that
`mt9v032_set_format` computed whenever `crop.width ≥ 112`; likewise the
recomputed `vratio` equals the computed one whenever `crop.height ≥ 112`. -/
theorem stream_ratio_matches_chosen (c : Ctx) (which : v4l2_subdev_format_whence)
    (req : v4l2_mbus_framefmt)
    (hw1 : 1 ≤ (__mt9v032_get_pad_crop c which).width)
    (hw2 : (__mt9v032_get_pad_crop c which).width ≤ 752)
    (hh1 : 1 ≤ (__mt9v032_get_pad_crop c which).height)
    (hh2 : (__mt9v032_get_pad_crop c which).height ≤ 480) :
    ∃ (hratio vratio : Nat) (c1 : Ctx) (f : v4l2_mbus_framefmt),
      set_format_ratio (__mt9v032_get_pad_crop c which).width
        MT9V032_WINDOW_WIDTH_MIN req.width = some hratio ∧
      set_format_ratio (__mt9v032_get_pad_crop c which).height
        MT9V032_WINDOW_HEIGHT_MIN req.height = some vratio ∧
      mt9v032_set_format c which req = some (c1, f) ∧
      __mt9v032_get_pad_format c1 which = f ∧
      (112 ≤ (__mt9v032_get_pad_crop c which).width →
        DIV_ROUND_CLOSEST (__mt9v032_get_pad_crop c1 which).width
          (__mt9v032_get_pad_format c1 which).width = some hratio) ∧
      (112 ≤ (__mt9v032_get_pad_crop c which).height →
        DIV_ROUND_CLOSEST (__mt9v032_get_pad_crop c1 which).height
          (__mt9v032_get_pad_format c1 which).height = some vratio) := by
  obtain ⟨hr, vr, e1, e2, e3, -⟩ :=
    set_format_spec c which req hw1 (by omega) hh1 (by omega)
  refine ⟨hr, vr, _, _, e1, e2, e3, get_format_set_format _ _ _, ?_, ?_⟩
  · intro h
    obtain ⟨r, q1, q2⟩ := set_format_ratio_recomputed _ MT9V032_WINDOW_WIDTH_MIN req.width
      rfl h (by omega)
    rw [e1] at q1
    cases q1
    rw [get_crop_set_format, get_format_set_format]
    exact q2
  · intro h
    obtain ⟨r, q1, q2⟩ := set_format_ratio_recomputed _ MT9V032_WINDOW_HEIGHT_MIN req.height
      rfl h (by omega)
    rw [e2] at q1
    cases q1
    rw [get_crop_set_format, get_format_set_format]
    exact q2

/-- C27 (witness). The amended statement at the default state (crop 752x480) and
the request 300x200: ratios 3 and 2 are chosen and recomputed. -/
theorem stream_ratio_matches_chosen_witness :
    ∃ (hratio vratio : Nat) (c1 : Ctx) (f : v4l2_mbus_framefmt),
      set_format_ratio 752 MT9V032_WINDOW_WIDTH_MIN 300 = some hratio ∧
      set_format_ratio 480 MT9V032_WINDOW_HEIGHT_MIN 200 = some vratio ∧
      mt9v032_set_format default_ctx V4L2_SUBDEV_FORMAT_ACTIVE
        { width := 300, height := 200 } = some (c1, f) ∧
      __mt9v032_get_pad_format c1 V4L2_SUBDEV_FORMAT_ACTIVE = f ∧
      ((112 : Int) ≤ 752 →
        DIV_ROUND_CLOSEST (__mt9v032_get_pad_crop c1 V4L2_SUBDEV_FORMAT_ACTIVE).width
          (__mt9v032_get_pad_format c1 V4L2_SUBDEV_FORMAT_ACTIVE).width = some hratio) ∧
      ((112 : Int) ≤ 480 →
        DIV_ROUND_CLOSEST (__mt9v032_get_pad_crop c1 V4L2_SUBDEV_FORMAT_ACTIVE).height
          (__mt9v032_get_pad_format c1 V4L2_SUBDEV_FORMAT_ACTIVE).height = some vratio) :=
  stream_ratio_matches_chosen default_ctx V4L2_SUBDEV_FORMAT_ACTIVE
    { width := 300, height := 200 } (by decide) (by decide) (by decide) (by decide)
end MT9V032
